import Mathlib

/-!
Shallow embedding of the procedural geometry generation engine of
`manimation` (`src/main.cpp`) and proofs about it.

The core of the program is the `MathAnimation` class: a quality policy
(`getQualityMultiplier`), mass mutation operations (`increaseMass`,
`decreaseMass`), and sixteen generator functions dispatched on
`animationMode` in `render`.  Each generator clears the shared vertex
buffer and rebuilds it as a flat stream of interleaved
position/colour floats, six per vertex.

Machine `float` arithmetic is modelled by real numbers; `int` by `ℤ`
(or `ℕ` for loop counters); the C `(int)` casts of nonnegative doubles
by `Nat.floor`.  Stateful C++ loops that only append to `vertices`
become `List.flatMap` over `List.range`; the Lorenz integration state
becomes an explicit trajectory function.  The mass field, which never
meets transcendental functions, is modelled over `ℚ` so that its
clamping behaviour stays an exact, executable computation.
-/

namespace Manimation

/-- Quality policy, from `getQualityMultiplier` (main.cpp:488-501):
a `switch` on the integer member `qualityLevel` with default 4. -/
def getQualityMultiplier (qualityLevel : ℤ) : ℤ :=
  if qualityLevel = 0 then 1
  else if qualityLevel = 1 then 2
  else if qualityLevel = 2 then 4
  else if qualityLevel = 3 then 8
  else 4

/-- `increaseMass` (main.cpp:418-422): add 0.2 to `centralMass`,
then clamp from above at 5.0. -/
def increaseMass (centralMass : ℚ) : ℚ :=
  if centralMass + 0.2 > 5 then 5 else centralMass + 0.2

/-- `decreaseMass` (main.cpp:424-428): subtract 0.2 from `centralMass`,
then clamp from below at 0.1. -/
def decreaseMass (centralMass : ℚ) : ℚ :=
  if centralMass - 0.2 < 0.1 then 0.1 else centralMass - 0.2

/-- The scalar fields of `MathAnimation` that matter to the
specification's state model. -/
structure AppState where
  time : ℚ
  animationMode : ℤ
  backgroundMode : ℤ
  targetFPS : ℤ
  qualityLevel : ℤ
  centralMass : ℚ
  maxDeformation : ℚ

/-- The `MathAnimation` constructor (main.cpp:128-165).  Its member
initializer list sets `time(0.0f), animationMode(0), backgroundMode(0),
targetFPS(60), qualityLevel(2)` (plus camera fields), but `centralMass`
and `maxDeformation` appear in neither the initializer list nor the
constructor body, so a freshly constructed object carries whatever
indeterminate values those slots already held.  The two arguments model
that indeterminate memory content. -/
def mkMathAnimation (centralMassGarbage maxDeformationGarbage : ℚ) : AppState where
  time := 0
  animationMode := 0
  backgroundMode := 0
  targetFPS := 60
  qualityLevel := 2
  centralMass := centralMassGarbage
  maxDeformation := maxDeformationGarbage

/-! ### Basic facts about the quality multiplier -/

theorem getQualityMultiplier_pos (q : ℤ) : 1 ≤ getQualityMultiplier q := by
  unfold getQualityMultiplier
  split_ifs <;> norm_num

theorem getQualityMultiplier_cases (q : ℤ) :
    getQualityMultiplier q = 1 ∨ getQualityMultiplier q = 2 ∨
    getQualityMultiplier q = 4 ∨ getQualityMultiplier q = 8 := by
  unfold getQualityMultiplier
  split_ifs <;> simp

/-! ### Closed forms for iterated mass mutation -/

theorem increaseMass_iterate (n : ℕ) :
    increaseMass^[n] (1/2) = min (1/2 + (n : ℚ) * (1/5)) 5 := by
  induction n with
  | zero => norm_num
  | succ n ih =>
    rw [Function.iterate_succ_apply', ih]
    rcases le_total ((1:ℚ)/2 + n * (1/5)) 5 with h | h
    · rw [min_eq_left h]
      unfold increaseMass
      split_ifs with h2
      · rw [min_eq_right (by push_cast; linarith)]
      · rw [min_eq_left (by push_cast; linarith)]
        push_cast
        ring
    · rw [min_eq_right h]
      unfold increaseMass
      rw [if_pos (by norm_num), min_eq_right (by push_cast; linarith)]

theorem decreaseMass_iterate (n : ℕ) :
    decreaseMass^[n] (1/2) = max (1/2 - (n : ℚ) * (1/5)) (1/10) := by
  induction n with
  | zero => norm_num
  | succ n ih =>
    rw [Function.iterate_succ_apply', ih]
    rcases le_total ((1:ℚ)/10) (1/2 - n * (1/5)) with h | h
    · rw [max_eq_left h]
      unfold decreaseMass
      split_ifs with h2
      · rw [max_eq_right (by push_cast; linarith)]
        norm_num
      · rw [max_eq_left (by push_cast; linarith)]
        push_cast
        ring
    · rw [max_eq_right h]
      unfold decreaseMass
      rw [if_pos (by norm_num), max_eq_right (by push_cast at h ⊢; linarith)]
      norm_num

/-! ### List helpers for flattened vertex streams

Every C++ generator loop appends a fixed-size block of floats per
iteration (six per emitted vertex, or nothing when a gyroid voxel fails
its threshold test); the flattened buffer is `List.flatMap` of the
per-iteration block over the iteration range. -/

theorem flatMap_length_const {α : Type} (l : List α) (f : α → List ℝ) (k : ℕ)
    (h : ∀ a ∈ l, (f a).length = k) : (l.flatMap f).length = l.length * k := by
  induction l with
  | nil => simp
  | cons a l ih =>
    simp only [List.flatMap_cons, List.length_append, List.length_cons]
    rw [h a (List.mem_cons_self a l), ih (fun b hb => h b (List.mem_cons_of_mem a hb))]
    ring

theorem flatMap_length_mod6 {α : Type} (l : List α) (f : α → List ℝ)
    (h : ∀ a ∈ l, (f a).length % 6 = 0) : (l.flatMap f).length % 6 = 0 := by
  induction l with
  | nil => simp
  | cons a l ih =>
    simp only [List.flatMap_cons, List.length_append]
    have h1 := h a (List.mem_cons_self a l)
    have h2 := ih (fun b hb => h b (List.mem_cons_of_mem a hb))
    omega

theorem flatMap_cancel {α : Type} (l : List α) (f g : α → List ℝ)
    (hlen : ∀ a ∈ l, (f a).length = (g a).length)
    (heq : l.flatMap f = l.flatMap g) : ∀ a ∈ l, f a = g a := by
  induction l with
  | nil => intro a ha; simp at ha
  | cons a l ih =>
    simp only [List.flatMap_cons] at heq
    have hl := hlen a (List.mem_cons_self a l)
    obtain ⟨h1, h2⟩ := List.append_inj heq hl
    intro b hb
    rcases List.mem_cons.mp hb with rfl | hb
    · exact h1
    · exact ih (fun c hc => hlen c (List.mem_cons_of_mem a hc)) h2 b hb

theorem flatMap_ne_nil {α : Type} {l : List α} {f : α → List ℝ} {a : α}
    (ha : a ∈ l) (hfa : f a ≠ []) : l.flatMap f ≠ [] := by
  intro h
  exact hfa (List.flatMap_eq_nil_iff.mp h a ha)

/-! ### The sixteen generators

Each `generateX` mirrors the body of the corresponding C++ member
function; `qm` stands for the value of `getQualityMultiplier()` at call
time, `t` for the `time` argument.  `M_PI` becomes `π`, `fabsf` the
absolute value, `powf` on the produced nonnegative bases `Real.rpow`,
`fminf` `min`, float division real division. -/

open Real

/-- Truncated-toward-zero remainder, the semantics of C `fmodf`. -/
noncomputable def fmodf (a b : ℝ) : ℝ :=
  a - b * (if 0 ≤ a / b then (⌊a / b⌋ : ℝ) else (⌈a / b⌉ : ℝ))

/-- One vertex of `generateParametricSpiral` (main.cpp:509-533). -/
noncomputable def spiralVertex (numPoints : ℕ) (t : ℝ) (i : ℕ) : List ℝ :=
  let param := (i : ℝ) / (numPoints : ℝ) * 10 * π
  let radius := 0.8 + 0.4 * sin (param * 0.1 + t)
  [radius * cos (param + t),
   sin (param * 0.3 + t * 0.5) * 0.5,
   radius * sin (param + t),
   0.6 + 0.4 * sin (param * 0.2 + t),
   0.6 + 0.4 * cos (param * 0.15 + t * 1.5),
   0.6 + 0.4 * sin (param * 0.3 + t * 0.8)]

noncomputable def generateParametricSpiral (qm : ℤ) (t : ℝ) : List ℝ :=
  (List.range (1000 * qm).toNat).flatMap (spiralVertex (1000 * qm).toNat t)

/-- One vertex of `generateLissajous` (main.cpp:535-558). -/
noncomputable def lissajousVertex (numPoints : ℕ) (t : ℝ) (i : ℕ) : List ℝ :=
  let param := (i : ℝ) / (numPoints : ℝ) * 4 * π
  [1.2 * sin (3 * param + t),
   1.0 * sin (2 * param + t * 0.7),
   0.8 * sin (5 * param + t * 1.3),
   0.7 + 0.3 * sin (param + t),
   0.7 + 0.3 * sin (param + t + 2 * π / 3),
   0.7 + 0.3 * sin (param + t + 4 * π / 3)]

noncomputable def generateLissajous (qm : ℤ) (t : ℝ) : List ℝ :=
  (List.range (2000 * qm).toNat).flatMap (lissajousVertex (2000 * qm).toNat t)

/-- One vertex of `generate3DHelix` (main.cpp:560-581). -/
noncomputable def helixVertex (numPoints : ℕ) (t : ℝ) (i : ℕ) : List ℝ :=
  let param := (i : ℝ) / (numPoints : ℝ) * 12 * π
  let amplitude := 1 + 0.3 * sin (t * 2)
  let intensity := (i : ℝ) / (numPoints : ℝ)
  [amplitude * cos (param + t),
   (param / (6 * π) - 1) * 1.5,
   amplitude * sin (param + t),
   0.8 * intensity + 0.2,
   0.8 * (1 - intensity) + 0.2,
   0.7 + 0.3 * sin (t + param)]

noncomputable def generate3DHelix (qm : ℤ) (t : ℝ) : List ℝ :=
  (List.range (1500 * qm).toNat).flatMap (helixVertex (1500 * qm).toNat t)

/-- Grid side of `generateSineWaveSurface`: `80 * sqrt(mult)` truncated
to `int`. -/
noncomputable def sineGridSize (qm : ℤ) : ℕ := ⌊(80 : ℝ) * Real.sqrt (qm : ℝ)⌋₊

/-- One vertex of `generateSineWaveSurface` (main.cpp:583-610). -/
noncomputable def sineSurfaceVertex (gridSize : ℕ) (t : ℝ) (i j : ℕ) : List ℝ :=
  let x := (i : ℝ) / (gridSize : ℝ) * 3 - 3 / 2
  let z := (j : ℝ) / (gridSize : ℝ) * 3 - 3 / 2
  let distance := Real.sqrt (x * x + z * z)
  let y := 0.6 * sin (distance * 2.5 - t * 3) * Real.exp (-distance * 0.4)
  let heightIntensity := (y + 0.6) * 0.8 + 0.2
  [x, y, z,
   0.3 + 0.7 * heightIntensity,
   0.2 + 0.6 * sin (distance * 0.5 + t),
   0.8 + 0.2 * cos (distance * 0.3 + t * 1.2)]

noncomputable def generateSineWaveSurface (qm : ℤ) (t : ℝ) : List ℝ :=
  (List.range (sineGridSize qm)).flatMap fun i =>
    (List.range (sineGridSize qm)).flatMap fun j =>
      sineSurfaceVertex (sineGridSize qm) t i j

/-- One vertex of `generateTorus` (main.cpp:612-642). -/
noncomputable def torusVertex (majorSegments minorSegments : ℕ) (t : ℝ) (i j : ℕ) : List ℝ :=
  let u := 2 * π * (i : ℝ) / (majorSegments : ℝ) + t
  let v := 2 * π * (j : ℝ) / (minorSegments : ℝ)
  let minorRadius := 0.4 + 0.2 * sin (t * 2)
  [(1.2 + minorRadius * cos v) * cos u,
   minorRadius * sin v,
   (1.2 + minorRadius * cos v) * sin u,
   0.6 + 0.4 * cos (u + t),
   0.6 + 0.4 * sin (v + t * 1.3),
   0.6 + 0.4 * sin (u + v + t * 0.7)]

noncomputable def generateTorus (qm : ℤ) (t : ℝ) : List ℝ :=
  (List.range (60 * qm).toNat).flatMap fun i =>
    (List.range (40 * qm).toNat).flatMap fun j =>
      torusVertex (60 * qm).toNat (40 * qm).toNat t i j

/-- One vertex of `generateHypotrochoid` (main.cpp:644-667). -/
noncomputable def hypotrochoidVertex (numPoints : ℕ) (t : ℝ) (i : ℕ) : List ℝ :=
  let R := 1 + 0.3 * sin (t * 0.5)
  let r := 0.3 + 0.1 * cos (t * 0.7)
  let d := 0.5 + 0.2 * sin (t * 1.3)
  let θ := (i : ℝ) / (numPoints : ℝ) * 2 * π
  let diff := R - r
  let hue := fmodf (θ + t) (2 * π) / (2 * π)
  [diff * cos θ + d * cos (diff / r * θ),
   diff * sin θ - d * sin (diff / r * θ),
   0,
   0.5 + 0.5 * sin (2 * π * hue),
   0.5 + 0.5 * sin (2 * π * hue + 2),
   0.5 + 0.5 * sin (2 * π * hue + 4)]

noncomputable def generateHypotrochoid (qm : ℤ) (t : ℝ) : List ℝ :=
  (List.range (2000 * qm).toNat).flatMap (hypotrochoidVertex (2000 * qm).toNat t)

/-- Superformula shape parameters at time `t` (main.cpp:672-675). -/
noncomputable def superM (t : ℝ) : ℝ := 6 + 4 * sin (t * 0.4)

noncomputable def superN1 (t : ℝ) : ℝ := 0.3 + 1.2 * |sin (t * 0.6)|

noncomputable def superN2 (t : ℝ) : ℝ := 1 + 2 * |cos (t * 0.5)|

noncomputable def superN3 (t : ℝ) : ℝ := 1 + 2 * |sin (t * 0.8)|

/-- One vertex of `generateSuperformula` (main.cpp:669-695); `a = b = 1`. -/
noncomputable def superformulaVertex (numPoints : ℕ) (t : ℝ) (i : ℕ) : List ℝ :=
  let φ := (i : ℝ) / (numPoints : ℝ) * 2 * π
  let cosm := cos (superM t * φ / 4) / 1
  let sinm := sin (superM t * φ / 4) / 1
  let r := (|cosm| ^ superN2 t + |sinm| ^ superN3 t) ^ (-1 / superN1 t)
  [r * cos φ, r * sin φ, 0,
   0.5 + 0.5 * r, 0.3 + 0.7 * (1 - r), 0.5 + 0.5 * sin (t + φ)]

noncomputable def generateSuperformula (qm : ℤ) (t : ℝ) : List ℝ :=
  (List.range (1000 * qm).toNat).flatMap (superformulaVertex (1000 * qm).toNat t)

/-- One explicit Euler step of the Lorenz system with `β = 8/3`,
`dt = 0.005` (main.cpp:700-712). -/
noncomputable def lorenzStep (σ ρ : ℝ) : ℝ × ℝ × ℝ → ℝ × ℝ × ℝ
  | (x, y, z) =>
    (x + σ * (y - x) * 0.005,
     y + (x * (ρ - z) - y) * 0.005,
     z + (x * y - 8 / 3 * z) * 0.005)

/-- The Lorenz trajectory of one `generateLorenzAttractor` call:
always re-seeded at `(0.1, 0, 0)` (main.cpp:704). -/
noncomputable def lorenzTraj (σ ρ : ℝ) : ℕ → ℝ × ℝ × ℝ
  | 0 => (0.1, 0, 0)
  | n + 1 => lorenzStep σ ρ (lorenzTraj σ ρ n)

/-- One vertex of `generateLorenzAttractor` (main.cpp:697-723): the
point is pushed after the Euler update of step `i`. -/
noncomputable def lorenzVertex (σ ρ t : ℝ) (i : ℕ) : List ℝ :=
  let x := (lorenzTraj σ ρ i).1
  let y := (lorenzTraj σ ρ i).2.1
  let z := (lorenzTraj σ ρ i).2.2
  let dx := σ * (y - x)
  let dy := x * (ρ - z) - y
  let dz := x * y - 8 / 3 * z
  let speed := Real.sqrt (dx * dx + dy * dy + dz * dz)
  [(x + dx * 0.005) * 0.1,
   (y + dy * 0.005) * 0.1 - 0.5,
   (z + dz * 0.005) * 0.1 - 0.5,
   min 1 (speed * 0.05),
   0.2 + 0.8 * |sin (speed + t)|,
   1 - min 1 (speed * 0.05)]

noncomputable def generateLorenzAttractor (qm : ℤ) (t : ℝ) : List ℝ :=
  (List.range (5000 * qm).toNat).flatMap
    (lorenzVertex (10 + 5 * sin (t * 0.3)) (28 + 10 * cos (t * 0.5)) t)

/-- One vertex of `generateKleinBottle` (main.cpp:725-748). -/
noncomputable def kleinVertex (uSeg vSeg : ℕ) (t : ℝ) (iu iv : ℕ) : List ℝ :=
  let r := 1.5 + 0.3 * sin t
  let u := (iu : ℝ) / (uSeg : ℝ) * 2 * π
  let v := (iv : ℝ) / (vSeg : ℝ) * 2 * π
  let x := (r + cos (u / 2) * sin v - sin (u / 2) * sin (2 * v)) * cos u
  let y := (r + cos (u / 2) * sin v - sin (u / 2) * sin (2 * v)) * sin u
  let z := sin (u / 2) * sin v + cos (u / 2) * sin (2 * v)
  [x * 0.3, y * 0.3, z * 0.3,
   0.5 + 0.5 * sin (u + t),
   0.5 + 0.5 * cos (v + t * 1.2),
   0.5 + 0.5 * sin (u + v + t * 0.7)]

noncomputable def generateKleinBottle (qm : ℤ) (t : ℝ) : List ℝ :=
  (List.range (100 * qm).toNat).flatMap fun iu =>
    (List.range (50 * qm).toNat).flatMap fun iv =>
      kleinVertex (100 * qm).toNat (50 * qm).toNat t iu iv

/-- Capped gyroid grid side (main.cpp:752-757): `min(50 * mult, 120)`. -/
def gyroidGrid (qm : ℤ) : ℕ := (min (50 * qm) 120).toNat

/-- One voxel of `generateGyroid` (main.cpp:760-780): emits a vertex
only when the implicit-surface value is within 0.05 of the level. -/
noncomputable def gyroidCell (G : ℕ) (level bcol : ℝ) (i j k : ℕ) : List ℝ :=
  let x := ((i : ℝ) / (G : ℝ) - 0.5) * 4
  let y := ((j : ℝ) / (G : ℝ) - 0.5) * 4
  let z := ((k : ℝ) / (G : ℝ) - 0.5) * 4
  let v := sin x * cos y + sin y * cos z + sin z * cos x
  if |v - level| < 0.05 then
    [x, y, z, (v - level + 0.05) / 0.1, 1 - (v - level + 0.05) / 0.1, bcol]
  else []

noncomputable def generateGyroid (qm : ℤ) (t : ℝ) : List ℝ :=
  (List.range (gyroidGrid qm)).flatMap fun i =>
    (List.range (gyroidGrid qm)).flatMap fun j =>
      (List.range (gyroidGrid qm)).flatMap fun k =>
        gyroidCell (gyroidGrid qm) (sin (t * 0.6) * 0.5) (0.5 + 0.5 * sin t) i j k

/-- The simplified stand-in for a spherical harmonic (main.cpp:504-507). -/
noncomputable def sph_legendre (l m : ℕ) (x : ℝ) : ℝ :=
  sin ((l : ℝ) * arccos x + (m : ℝ) * 0.5)

/-- Degree parameter of `generateSphericalHarmonic` (main.cpp:787):
`2 + (int)(2 * |sin(0.3 t)|)`. -/
noncomputable def sphericalL (t : ℝ) : ℕ := 2 + ⌊2 * |sin (t * 0.3)|⌋₊

/-- One vertex of `generateSphericalHarmonic` (main.cpp:783-810). -/
noncomputable def sphericalVertex (latSeg lonSeg l m : ℕ) (eps t : ℝ) (i j : ℕ) : List ℝ :=
  let θ := π * (i : ℝ) / (latSeg : ℝ)
  let φ := 2 * π * (j : ℝ) / (lonSeg : ℝ)
  let Y := sph_legendre l m (cos θ) * cos ((m : ℝ) * φ)
  let R := 1 + eps * Y
  [R * sin θ * cos φ, R * sin θ * sin φ, R * cos θ,
   0.5 + 0.5 * Y, 0.5 - 0.5 * Y, 0.3 + 0.7 * |sin (t + φ)|]

noncomputable def generateSphericalHarmonic (qm : ℤ) (t : ℝ) : List ℝ :=
  (List.range ((40 * qm).toNat + 1)).flatMap fun i =>
    (List.range ((80 * qm).toNat + 1)).flatMap fun j =>
      sphericalVertex (40 * qm).toNat (80 * qm).toNat (sphericalL t) (sphericalL t / 2)
        (0.2 + 0.3 * |cos (t * 0.4)|) t i j

/-- Escape-time loop of `generateFractalZoom` (main.cpp:823-831):
number of Mandelbrot iterations performed, capped by the fuel. -/
noncomputable def mandelLoop (x0 y0 : ℝ) : ℕ → ℝ → ℝ → ℕ
  | 0, _, _ => 0
  | fuel + 1, x, y =>
    if x * x + y * y < 4 then mandelLoop x0 y0 fuel (x * x - y * y + x0) (2 * x * y + y0) + 1
    else 0

/-- Grid side of `generateFractalZoom`: `200 * sqrt(mult)` truncated. -/
noncomputable def fractalRes (qm : ℤ) : ℕ := ⌊(200 : ℝ) * Real.sqrt (qm : ℝ)⌋₊

/-- One vertex of `generateFractalZoom` (main.cpp:812-843). -/
noncomputable def fractalVertex (res : ℕ) (zoom cx cy : ℝ) (i j : ℕ) : List ℝ :=
  let x0 := ((i : ℝ) / (res : ℝ) - 0.5) * zoom + cx
  let y0 := ((j : ℝ) / (res : ℝ) - 0.5) * zoom + cy
  let h := (mandelLoop x0 y0 100 0 0 : ℝ) / 100
  [(i : ℝ) / (res : ℝ) - 0.5, h * 1 - 0.5, (j : ℝ) / (res : ℝ) - 0.5,
   h, 0.5 * h, 1 - h]

noncomputable def generateFractalZoom (qm : ℤ) (t : ℝ) : List ℝ :=
  (List.range (fractalRes qm)).flatMap fun i =>
    (List.range (fractalRes qm)).flatMap fun j =>
      fractalVertex (fractalRes qm) (1.5 + 0.5 * sin (t * 0.2))
        (-0.5 + 0.2 * cos (t * 0.3)) (0 + 0.2 * sin (t * 0.4)) i j

/-- One seed of `generatePhyllotaxis` (main.cpp:845-865). -/
noncomputable def phyllotaxisVertex (t : ℝ) (n : ℕ) : List ℝ :=
  let angle0 := (1.6180339887 + 0.1 * sin (t * 0.5)) * π
  let θ := (n : ℝ) * angle0
  let r := 0.02 * Real.sqrt (n : ℝ)
  [r * cos θ, r * sin θ, 0,
   0.5 + 0.5 * sin (θ + t), 0.5 + 0.5 * cos (θ + t * 1.2), 0.5 + 0.5 * sin t]

noncomputable def generatePhyllotaxis (qm : ℤ) (t : ℝ) : List ℝ :=
  (List.range (1000 * qm).toNat).flatMap (phyllotaxisVertex t)

/-- Coordinate `d` of hypercube corner `i` (main.cpp:870-874):
`(i & (1 << d)) ? 1 : -1`. -/
noncomputable def tesseractCoord (i d : ℕ) : ℝ := if i &&& (1 <<< d) ≠ 0 then 1 else -1

/-- The `x` coordinate of corner `i` after the x-w rotation by `0.3 t`
(main.cpp:876-881). -/
noncomputable def tesseractV0 (t : ℝ) (i : ℕ) : ℝ :=
  cos (t * 0.3) * tesseractCoord i 0 - sin (t * 0.3) * tesseractCoord i 3

/-- The `w` coordinate of corner `i` after the x-w rotation by `0.3 t`
(main.cpp:876-881). -/
noncomputable def tesseractW (t : ℝ) (i : ℕ) : ℝ :=
  sin (t * 0.3) * tesseractCoord i 0 + cos (t * 0.3) * tesseractCoord i 3

/-- Perspective divisor of `generateTesseract4D` (main.cpp:883). -/
noncomputable def tesseractDist (t : ℝ) : ℝ := 3 + sin (t * 0.5)

/-- One projected corner of `generateTesseract4D` (main.cpp:884-895). -/
noncomputable def tesseractVertex (t : ℝ) (i : ℕ) : List ℝ :=
  let w := 1 / (tesseractDist t - tesseractW t i)
  [tesseractV0 t i * w, tesseractCoord i 1 * w, tesseractCoord i 2 * w,
   0.5 + 0.5 * tesseractW t i, 1 - 0.5 * tesseractW t i, 0.5 + 0.5 * sin t]

noncomputable def generateTesseract4D (t : ℝ) : List ℝ :=
  (List.range 16).flatMap (tesseractVertex t)

/-- Grid side of `generateWaveInterference`: `100 * sqrt(mult)` truncated. -/
noncomputable def waveGridSize (qm : ℤ) : ℕ := ⌊(100 : ℝ) * Real.sqrt (qm : ℝ)⌋₊

/-- One vertex of `generateWaveInterference` (main.cpp:898-921). -/
noncomputable def waveVertex (grid : ℕ) (t : ℝ) (i j : ℕ) : List ℝ :=
  let k1 := 2 + sin (t * 0.3)
  let k2 := 3 + cos (t * 0.4)
  let ω1 := 1.5 + cos (t * 0.5)
  let ω2 := 1 + sin (t * 0.6)
  let x := ((i : ℝ) / (grid : ℝ) - 0.5) * 4
  let z := ((j : ℝ) / (grid : ℝ) - 0.5) * 4
  let y := 0.5 * (sin (k1 * x - ω1 * t) + sin (k2 * z - ω2 * t))
  let h := (y + 1) * 0.5
  [x, y, z, h, 1 - h, 0.5 + 0.5 * sin t]

noncomputable def generateWaveInterference (qm : ℤ) (t : ℝ) : List ℝ :=
  (List.range (waveGridSize qm)).flatMap fun i =>
    (List.range (waveGridSize qm)).flatMap fun j =>
      waveVertex (waveGridSize qm) t i j

/-- Surface height of `generateGravitationalSpacetime`
(main.cpp:937-952): the stylized gravitational well.  Note that the
radius ratio shadows the time parameter `t` of the enclosing C++
function, which is therefore never used. -/
noncomputable def gravY (cm md x z : ℝ) : ℝ :=
  let r := Real.sqrt (x * x + z * z)
  if r < 4 then
    let tt := r / 4
    let depth := cm * md
    let steepness := 4 * cm
    let well := 1 / (1 + steepness * tt * tt)
    let parabolic := 1 - tt * tt
    let blend := Real.exp (-3 * tt);
    -(depth * (blend * well + (1 - blend) * parabolic))
  else 0

/-- One surface vertex of `generateGravitationalSpacetime`
(main.cpp:932-957), grey colour. -/
noncomputable def gravSurfaceVertex (cm md : ℝ) (i j : ℕ) : List ℝ :=
  let x := (i : ℝ) / 79 * 2 * 4 - 4
  let z := (j : ℝ) / 79 * 2 * 4 - 4
  [x, gravY cm md x z, z, 0.6, 0.6, 0.6]

/-- One vertical-overlay-line vertex (main.cpp:963-981): row index
steps by 3, i.e. `j = 3 n`, white colour, lifted by 0.01. -/
noncomputable def gravVertLineVertex (cm md : ℝ) (line n : ℕ) : List ℝ :=
  let coord := (line : ℝ) / 14 * 2 * 4 - 4
  let z := ((3 * n : ℕ) : ℝ) / 79 * 2 * 4 - 4
  [coord, gravY cm md coord z + 0.01, z, 1, 1, 1]

/-- One horizontal-overlay-line vertex (main.cpp:983-1001). -/
noncomputable def gravHorizLineVertex (cm md : ℝ) (line n : ℕ) : List ℝ :=
  let coord := (line : ℝ) / 14 * 2 * 4 - 4
  let x := ((3 * n : ℕ) : ℝ) / 79 * 2 * 4 - 4
  [x, gravY cm md x coord + 0.01, coord, 1, 1, 1]

/-- `generateGravitationalSpacetime` (main.cpp:923-1003): an 80 x 80
surface grid followed, per overlay line, by 27 vertical and 27
horizontal line vertices (every 3rd of 80 rows/columns).  The time
parameter is shadowed inside the body and never used. -/
noncomputable def generateGravitationalSpacetime (cm md tArg : ℝ) : List ℝ :=
  ((List.range 80).flatMap fun i =>
    (List.range 80).flatMap fun j => gravSurfaceVertex cm md i j) ++
  ((List.range 15).flatMap fun line =>
    ((List.range 27).flatMap fun n => gravVertLineVertex cm md line n) ++
    ((List.range 27).flatMap fun n => gravHorizLineVertex cm md line n))

/-- The mode dispatch of `render` (main.cpp:1144-1193): one generation
call with the current time, quality level and mass state. -/
noncomputable def generate (mode q : ℤ) (t cm md : ℝ) : List ℝ :=
  let qm := getQualityMultiplier q
  if mode = 0 then generateParametricSpiral qm t
  else if mode = 1 then generateLissajous qm t
  else if mode = 2 then generate3DHelix qm t
  else if mode = 3 then generateSineWaveSurface qm t
  else if mode = 4 then generateTorus qm t
  else if mode = 5 then generateHypotrochoid qm t
  else if mode = 6 then generateSuperformula qm t
  else if mode = 7 then generateLorenzAttractor qm t
  else if mode = 8 then generateKleinBottle qm t
  else if mode = 9 then generateGyroid qm t
  else if mode = 10 then generateSphericalHarmonic qm t
  else if mode = 11 then generateFractalZoom qm t
  else if mode = 12 then generatePhyllotaxis qm t
  else if mode = 13 then generateTesseract4D t
  else if mode = 14 then generateWaveInterference qm t
  else if mode = 15 then generateGravitationalSpacetime cm md t
  else []

/-! ### Shape facts about the generated streams -/

theorem flatMap_length_le {α : Type} (l : List α) (f : α → List ℝ) (k : ℕ)
    (h : ∀ a ∈ l, (f a).length ≤ k) : (l.flatMap f).length ≤ l.length * k := by
  induction l with
  | nil => simp
  | cons a l ih =>
    simp only [List.flatMap_cons, List.length_append, List.length_cons]
    have h1 := h a (List.mem_cons_self a l)
    have h2 := ih (fun b hb => h b (List.mem_cons_of_mem a hb))
    calc (f a).length + (l.flatMap f).length ≤ k + l.length * k := by omega
      _ = (l.length + 1) * k := by ring

theorem count_toNat_pos (c qm : ℤ) (hc : 0 < c) (hqm : 1 ≤ qm) : 0 < (c * qm).toNat := by
  have h : c ≤ c * qm := le_mul_of_one_le_right hc.le hqm
  omega

theorem floor_grid_pos (c : ℝ) (qm : ℤ) (hc : 1 ≤ c) (hqm : 1 ≤ qm) :
    0 < ⌊c * Real.sqrt (qm : ℝ)⌋₊ := by
  have h1 : (1 : ℝ) ≤ Real.sqrt (qm : ℝ) := by
    rw [Real.one_le_sqrt]
    exact_mod_cast hqm
  have : (1 : ℕ) ≤ ⌊c * Real.sqrt (qm : ℝ)⌋₊ := by
    apply Nat.le_floor
    push_cast
    nlinarith
  omega

theorem gyroidCell_length (G : ℕ) (level bcol : ℝ) (i j k : ℕ) :
    (gyroidCell G level bcol i j k).length = 6 ∨ (gyroidCell G level bcol i j k).length = 0 := by
  simp only [gyroidCell]
  split_ifs <;> simp

/-! ### Claim C3: the quality multiplier table -/

/-- C3: `getQualityMultiplier` maps levels 0,1,2,3 to 1,2,4,8, maps every
other level to 4 (the High multiplier), and is monotone on levels 0..3. -/
theorem c3_quality_multiplier_table :
    getQualityMultiplier 0 = 1 ∧ getQualityMultiplier 1 = 2 ∧
    getQualityMultiplier 2 = 4 ∧ getQualityMultiplier 3 = 8 ∧
    (∀ q : ℤ, q ≠ 0 → q ≠ 1 → q ≠ 2 → q ≠ 3 → getQualityMultiplier q = 4) ∧
    (∀ a b : ℤ, 0 ≤ a → a ≤ b → b ≤ 3 →
      getQualityMultiplier a ≤ getQualityMultiplier b) := by
  refine ⟨by decide, by decide, by decide, by decide, ?_, ?_⟩
  · intro q h0 h1 h2 h3
    unfold getQualityMultiplier
    split_ifs <;> simp_all
  · intro a b ha hab hb3
    have ha4 : a = 0 ∨ a = 1 ∨ a = 2 ∨ a = 3 := by omega
    have hb4 : b = 0 ∨ b = 1 ∨ b = 2 ∨ b = 3 := by omega
    rcases ha4 with rfl | rfl | rfl | rfl <;> rcases hb4 with rfl | rfl | rfl | rfl <;>
      first | decide | omega

/-- Witness for C3 at concrete inputs. -/
theorem c3_quality_multiplier_table_witness :
    getQualityMultiplier 7 = 4 ∧ getQualityMultiplier 1 ≤ getQualityMultiplier 2 :=
  ⟨c3_quality_multiplier_table.2.2.2.2.1 7 (by decide) (by decide) (by decide) (by decide),
   c3_quality_multiplier_table.2.2.2.2.2 1 2 (by decide) (by decide) (by decide)⟩

/-! ### Claim C4: mass clamping -/

/-- C4: `increaseMass` adds 0.2 clamping at 5.0, `decreaseMass`
subtracts 0.2 clamping at 0.1; from 0.5, 23 increase calls reach
exactly 5.0 (22 do not yet), further calls stay at 5.0, and decrease
calls from 0.5 saturate at exactly 0.1. -/
theorem c4_mass_clamping :
    (∀ m : ℚ, increaseMass m = min (m + 0.2) 5) ∧
    (∀ m : ℚ, decreaseMass m = max (m - 0.2) 0.1) ∧
    increaseMass^[23] 0.5 = 5 ∧ increaseMass^[22] 0.5 < 5 ∧
    (∀ n : ℕ, increaseMass^[n] 5 = 5) ∧
    decreaseMass^[2] 0.5 = 0.1 ∧ (∀ n : ℕ, decreaseMass^[n] 0.1 = 0.1) := by
  have h05 : (0.5 : ℚ) = 1 / 2 := by norm_num
  have hinc5 : increaseMass 5 = 5 := by unfold increaseMass; norm_num
  have hdec01 : decreaseMass 0.1 = 0.1 := by unfold decreaseMass; norm_num
  refine ⟨?_, ?_, ?_, ?_, ?_, ?_, ?_⟩
  · intro m
    unfold increaseMass
    split_ifs with h
    · rw [min_eq_right (by linarith)]
    · rw [min_eq_left (by linarith)]
  · intro m
    unfold decreaseMass
    split_ifs with h
    · rw [max_eq_right (by linarith)]
    · rw [max_eq_left (by linarith)]
  · rw [h05, increaseMass_iterate 23]
    norm_num
  · rw [h05, increaseMass_iterate 22]
    norm_num
  · intro n
    induction n with
    | zero => rfl
    | succ n ih => rw [Function.iterate_succ_apply', ih, hinc5]
  · rw [h05, decreaseMass_iterate 2]
    norm_num
  · intro n
    induction n with
    | zero => rfl
    | succ n ih => rw [Function.iterate_succ_apply', ih, hdec01]

/-! ### Claim C8: the initial central mass -/

/-- C8: the claim says a freshly constructed `MathAnimation` has
central mass 0.5, but the constructor initializer list never sets
`centralMass` (nor `maxDeformation`), so the field keeps whatever
indeterminate value its memory held: with garbage value 1 the freshly
constructed state reports central mass 1, not 0.5. -/
theorem c8_initial_mass_uninitialized :
    (∀ g d : ℚ, (mkMathAnimation g d).centralMass = g) ∧
    (mkMathAnimation 1 0).centralMass = 1 ∧ (1 : ℚ) ≠ 0.5 :=
  ⟨fun _ _ => rfl, rfl, by norm_num⟩

/-! ### Claim C1: determinism of generation -/

/-- C1: `generate` is a pure function of `(mode, quality, time, mass,
deformation)` — two calls with identical arguments produce identical
vertex streams — and the Lorenz generator re-seeds its trajectory at
the fixed point (0.1, 0, 0) on every call, carrying no state across
calls. -/
theorem c1_generation_deterministic :
    (∀ (mode q : ℤ) (t cm md : ℝ), generate mode q t cm md = generate mode q t cm md) ∧
    (∀ σ ρ : ℝ, lorenzTraj σ ρ 0 = (0.1, 0, 0)) ∧
    (∀ (qm : ℤ) (t : ℝ), generateLorenzAttractor qm t =
      (List.range (5000 * qm).toNat).flatMap
        (lorenzVertex (10 + 5 * Real.sin (t * 0.3)) (28 + 10 * Real.cos (t * 0.5)) t)) :=
  ⟨fun _ _ _ _ _ => rfl, fun _ _ => rfl, fun _ _ => rfl⟩

/-! ### Claim C5: the gyroid density cap -/

/-- C5: the gyroid grid side equals `min(50 * multiplier, 120)` for
every quality level; at Ultra (multiplier 8) the side is exactly 120,
so exactly `120^3` voxels are enumerated and the stream can never
exceed 6 floats per voxel over that cap. -/
theorem c5_gyroid_density_cap :
    (∀ q : ℤ, (gyroidGrid (getQualityMultiplier q) : ℤ) =
      min (50 * getQualityMultiplier q) 120) ∧
    getQualityMultiplier 3 = 8 ∧ gyroidGrid (getQualityMultiplier 3) = 120 ∧
    gyroidGrid (getQualityMultiplier 3) ^ 3 = 1728000 ∧
    (∀ (q : ℤ) (t : ℝ), (generateGyroid (getQualityMultiplier q) t).length ≤
      6 * gyroidGrid (getQualityMultiplier q) ^ 3) := by
  refine ⟨?_, by decide, by decide, by decide, ?_⟩
  · intro q
    rcases getQualityMultiplier_cases q with h | h | h | h <;> rw [h] <;> decide
  · intro q t
    set G := gyroidGrid (getQualityMultiplier q) with hG
    unfold generateGyroid
    rw [← hG]
    have step : ∀ lvl bc : ℝ, ∀ i j : ℕ,
        (((List.range G).flatMap fun k => gyroidCell G lvl bc i j k)).length ≤ G * 6 := by
      intro lvl bc i j
      have h6 := flatMap_length_le (List.range G) (fun k => gyroidCell G lvl bc i j k) 6
        (fun k _ => by
          show (gyroidCell G lvl bc i j k).length ≤ 6
          rcases gyroidCell_length G lvl bc i j k with h | h <;> omega)
      simpa using h6
    have step2 : ∀ lvl bc : ℝ, ∀ i : ℕ,
        (((List.range G).flatMap fun j =>
          (List.range G).flatMap fun k => gyroidCell G lvl bc i j k)).length ≤ G * (G * 6) := by
      intro lvl bc i
      have h66 := flatMap_length_le (List.range G)
        (fun j => (List.range G).flatMap fun k => gyroidCell G lvl bc i j k) (G * 6)
        (fun j _ => step lvl bc i j)
      simpa using h66
    have step3 := flatMap_length_le (List.range G)
      (fun i => (List.range G).flatMap fun j =>
        (List.range G).flatMap fun k =>
          gyroidCell G (Real.sin (t * 0.6) * 0.5) (0.5 + 0.5 * Real.sin t) i j k)
      (G * (G * 6)) (fun i _ => step2 _ _ i)
    simp only [List.length_range] at step3
    calc _ ≤ G * (G * (G * 6)) := step3
      _ = 6 * G ^ 3 := by ring

theorem gravSpacetime_length (cm md tArg : ℝ) :
    (generateGravitationalSpacetime cm md tArg).length = 6 * (80 * 80 + 15 * (27 + 27)) := by
    unfold generateGravitationalSpacetime
    rw [List.length_append]
    have hsurf : (((List.range 80).flatMap fun i =>
        (List.range 80).flatMap fun j => gravSurfaceVertex cm md i j)).length = 80 * (80 * 6) := by
      rw [flatMap_length_const (List.range 80)
        (fun i => (List.range 80).flatMap fun j => gravSurfaceVertex cm md i j) (80 * 6)
        (fun i _ => by
          rw [flatMap_length_const (List.range 80) (fun j => gravSurfaceVertex cm md i j) 6
            (fun j _ => rfl)]
          simp)]
      simp
    have hlines : (((List.range 15).flatMap fun line =>
        ((List.range 27).flatMap fun n => gravVertLineVertex cm md line n) ++
        ((List.range 27).flatMap fun n => gravHorizLineVertex cm md line n))).length =
        15 * (27 * 6 + 27 * 6) := by
      rw [flatMap_length_const (List.range 15)
        (fun line => ((List.range 27).flatMap fun n => gravVertLineVertex cm md line n) ++
          ((List.range 27).flatMap fun n => gravHorizLineVertex cm md line n)) (27 * 6 + 27 * 6)
        (fun line _ => by
          rw [List.length_append,
            flatMap_length_const (List.range 27) (fun n => gravVertLineVertex cm md line n) 6
              (fun n _ => rfl),
            flatMap_length_const (List.range 27) (fun n => gravHorizLineVertex cm md line n) 6
              (fun n _ => rfl)]
          simp)]
      simp
    rw [hsurf, hlines]

/-! ### Mode dispatch equations -/

theorem generate_mode0 (q : ℤ) (t cm md : ℝ) :
    generate 0 q t cm md = generateParametricSpiral (getQualityMultiplier q) t := by
  norm_num [generate]

theorem generate_mode1 (q : ℤ) (t cm md : ℝ) :
    generate 1 q t cm md = generateLissajous (getQualityMultiplier q) t := by
  norm_num [generate]

theorem generate_mode2 (q : ℤ) (t cm md : ℝ) :
    generate 2 q t cm md = generate3DHelix (getQualityMultiplier q) t := by
  norm_num [generate]

theorem generate_mode3 (q : ℤ) (t cm md : ℝ) :
    generate 3 q t cm md = generateSineWaveSurface (getQualityMultiplier q) t := by
  norm_num [generate]

theorem generate_mode4 (q : ℤ) (t cm md : ℝ) :
    generate 4 q t cm md = generateTorus (getQualityMultiplier q) t := by
  norm_num [generate]

theorem generate_mode5 (q : ℤ) (t cm md : ℝ) :
    generate 5 q t cm md = generateHypotrochoid (getQualityMultiplier q) t := by
  norm_num [generate]

theorem generate_mode6 (q : ℤ) (t cm md : ℝ) :
    generate 6 q t cm md = generateSuperformula (getQualityMultiplier q) t := by
  norm_num [generate]

theorem generate_mode7 (q : ℤ) (t cm md : ℝ) :
    generate 7 q t cm md = generateLorenzAttractor (getQualityMultiplier q) t := by
  norm_num [generate]

theorem generate_mode8 (q : ℤ) (t cm md : ℝ) :
    generate 8 q t cm md = generateKleinBottle (getQualityMultiplier q) t := by
  norm_num [generate]

theorem generate_mode9 (q : ℤ) (t cm md : ℝ) :
    generate 9 q t cm md = generateGyroid (getQualityMultiplier q) t := by
  norm_num [generate]

theorem generate_mode10 (q : ℤ) (t cm md : ℝ) :
    generate 10 q t cm md = generateSphericalHarmonic (getQualityMultiplier q) t := by
  norm_num [generate]

theorem generate_mode11 (q : ℤ) (t cm md : ℝ) :
    generate 11 q t cm md = generateFractalZoom (getQualityMultiplier q) t := by
  norm_num [generate]

theorem generate_mode12 (q : ℤ) (t cm md : ℝ) :
    generate 12 q t cm md = generatePhyllotaxis (getQualityMultiplier q) t := by
  norm_num [generate]

theorem generate_mode13 (q : ℤ) (t cm md : ℝ) :
    generate 13 q t cm md = generateTesseract4D t := by
  norm_num [generate]

theorem generate_mode14 (q : ℤ) (t cm md : ℝ) :
    generate 14 q t cm md = generateWaveInterference (getQualityMultiplier q) t := by
  norm_num [generate]

theorem generate_mode15 (q : ℤ) (t cm md : ℝ) :
    generate 15 q t cm md = generateGravitationalSpacetime cm md t := by
  norm_num [generate]

/-! ### Elementary trigonometric bounds -/

theorem sin_one_gt_three_quarters : (3 : ℝ) / 4 < Real.sin 1 := by
  have h := Real.sin_gt_sub_cube (x := 1) one_pos (le_refl 1)
  norm_num at h
  linarith

theorem sin_ge_half_on_19_2 (x : ℝ) (h1 : 1.9 ≤ x) (h2 : x ≤ 2) : 1 / 2 ≤ Real.sin x := by
  have hpi1 : (3.141592 : ℝ) < π := Real.pi_gt_d6
  have hpi2 : π < 3.15 := Real.pi_lt_d2
  rw [← Real.sin_pi_sub]
  have hy1 : (1 : ℝ) ≤ π - x := by linarith
  have hy2 : π - x ≤ π / 2 := by linarith
  have hmono := Real.sin_le_sin_of_le_of_le_pi_div_two
    (x := 1) (y := π - x) (by linarith) hy2 hy1
  have hs1 := sin_one_gt_three_quarters
  linarith

theorem sin_lipschitz (a b : ℝ) : |Real.sin a - Real.sin b| ≤ |a - b| := by
  rw [Real.sin_sub_sin, abs_mul, abs_mul]
  have h1 : |Real.sin ((a - b) / 2)| ≤ |(a - b) / 2| := Real.abs_sin_le_abs
  have h2 : |Real.cos ((a + b) / 2)| ≤ 1 := Real.abs_cos_le_one _
  have h3 : |(2 : ℝ)| = 2 := by norm_num
  calc |(2 : ℝ)| * |Real.sin ((a - b) / 2)| * |Real.cos ((a + b) / 2)|
      ≤ |(2 : ℝ)| * |(a - b) / 2| * 1 :=
        mul_le_mul (mul_le_mul_of_nonneg_left h1 (by positivity)) h2 (abs_nonneg _)
          (by positivity)
    _ = |a - b| := by rw [h3, abs_div, show |(2:ℝ)| = 2 from by norm_num]; ring

/-- A discrete intermediate value principle: a sequence moving in steps
of at most `h` from below `L` to above `L` lands within `h / 2` of `L`
somewhere. -/
theorem discrete_ivt (f : ℕ → ℝ) (L h : ℝ) (hh : 0 ≤ h) :
    ∀ n : ℕ, f 0 ≤ L → L ≤ f n → (∀ i, i < n → |f (i + 1) - f i| ≤ h) →
    ∃ i, i ≤ n ∧ |f i - L| ≤ h / 2 := by
  intro n
  induction n with
  | zero =>
    intro h0 hn _
    exact ⟨0, le_refl 0, by rw [abs_of_nonpos (by linarith)]; linarith⟩
  | succ n ih =>
    intro h0 hn hstep
    by_cases hc : L ≤ f n
    · obtain ⟨i, hi, hiv⟩ := ih h0 hc (fun i hin => hstep i (Nat.lt_succ_of_lt hin))
      exact ⟨i, Nat.le_succ_of_le hi, hiv⟩
    · push_neg at hc
      have hs := hstep n (Nat.lt_succ_self n)
      have hs2 : f (n + 1) - f n ≤ h := le_trans (le_abs_self _) hs
      by_cases h2 : L - f n ≤ h / 2
      · exact ⟨n, Nat.le_succ n, by rw [abs_sub_comm, abs_of_nonneg (by linarith)]; exact h2⟩
      · push_neg at h2
        refine ⟨n + 1, le_refl _, ?_⟩
        rw [abs_of_nonneg (by linarith)]
        linarith

/-- On a grid of side `G ∈ [50, 120]`, the diagonal slice
`i ↦ sin(4 i / G - 2)` passes within 1/25 of any level in [-1/2, 1/2]. -/
theorem sin_grid_hits (G : ℕ) (hG1 : 50 ≤ G) (hG2 : G ≤ 120) (L : ℝ)
    (hL1 : -(1 / 2) ≤ L) (hL2 : L ≤ 1 / 2) :
    ∃ i, i < G ∧ |Real.sin (((i : ℝ) / (G : ℝ) - 0.5) * 4) - L| ≤ 1 / 25 := by
  have hGR : (50 : ℝ) ≤ (G : ℝ) := by exact_mod_cast hG1
  have hGR2 : ((G : ℝ)) ≤ 120 := by exact_mod_cast hG2
  have hGpos : (0 : ℝ) < (G : ℝ) := by linarith
  have hstep : ∀ i, i < G - 1 →
      |Real.sin ((((i + 1 : ℕ) : ℝ) / (G : ℝ) - 0.5) * 4) -
        Real.sin (((i : ℝ) / (G : ℝ) - 0.5) * 4)| ≤ 2 / 25 := by
    intro i _
    have h1 := sin_lipschitz ((((i + 1 : ℕ) : ℝ) / (G : ℝ) - 0.5) * 4)
      (((i : ℝ) / (G : ℝ) - 0.5) * 4)
    have h2 : (((i + 1 : ℕ) : ℝ) / (G : ℝ) - 0.5) * 4 - (((i : ℝ) / (G : ℝ) - 0.5) * 4)
        = 4 / (G : ℝ) := by
      push_cast
      field_simp
      ring
    have h3 : |(4 : ℝ) / (G : ℝ)| = 4 / (G : ℝ) := abs_of_pos (div_pos (by norm_num) hGpos)
    rw [h2, h3] at h1
    have h4 : 4 / (G : ℝ) ≤ 2 / 25 := by
      rw [div_le_div_iff₀ hGpos (by norm_num)]
      linarith
    linarith
  have hf0 : Real.sin ((((0 : ℕ) : ℝ) / (G : ℝ) - 0.5) * 4) ≤ L := by
    have harg : (((0 : ℕ) : ℝ) / (G : ℝ) - 0.5) * 4 = -2 := by
      rw [Nat.cast_zero, zero_div]
      norm_num
    rw [harg, show (-2 : ℝ) = -(2 : ℝ) from by norm_num, Real.sin_neg]
    have h2 := sin_ge_half_on_19_2 2 (by norm_num) (by norm_num)
    linarith
  have hfn : L ≤ Real.sin ((((G - 1 : ℕ) : ℝ) / (G : ℝ) - 0.5) * 4) := by
    have hcast : ((G - 1 : ℕ) : ℝ) = (G : ℝ) - 1 := by
      have : (1 : ℕ) ≤ G := by omega
      push_cast [this]
      ring
    have harg : (((G - 1 : ℕ) : ℝ) / (G : ℝ) - 0.5) * 4 = 2 - 4 / (G : ℝ) := by
      rw [hcast]
      field_simp
      ring
    rw [harg]
    have hb1 : 4 / (G : ℝ) ≤ 2 / 25 := by
      rw [div_le_div_iff₀ hGpos (by norm_num)]
      linarith
    have hb2 : 0 < 4 / (G : ℝ) := by positivity
    have h2 := sin_ge_half_on_19_2 (2 - 4 / (G : ℝ)) (by norm_num; linarith) (by linarith)
    linarith
  obtain ⟨i, hi, hiv⟩ := discrete_ivt
    (fun i => Real.sin (((i : ℝ) / (G : ℝ) - 0.5) * 4)) L (2 / 25) (by norm_num)
    (G - 1) hf0 hfn hstep
  refine ⟨i, by omega, ?_⟩
  have : (2 : ℝ) / 25 / 2 = 1 / 25 := by norm_num
  rw [← this]
  exact hiv

theorem gyroidGrid_facts (qm : ℤ) (hq : qm = 1 ∨ qm = 2 ∨ qm = 4 ∨ qm = 8) :
    50 ≤ gyroidGrid qm ∧ gyroidGrid qm ≤ 120 ∧ gyroidGrid qm % 2 = 0 := by
  rcases hq with rfl | rfl | rfl | rfl <;> decide

theorem gyroid_half_zero (G : ℕ) (hGe : G % 2 = 0) (hGpos : 0 < G) :
    (((G / 2 : ℕ) : ℝ) / (G : ℝ) - 0.5) * 4 = 0 := by
  obtain ⟨g, rfl⟩ : ∃ g, G = 2 * g := ⟨G / 2, by omega⟩
  have hg : 0 < g := by omega
  have hgR : (0 : ℝ) < (g : ℝ) := by exact_mod_cast hg
  rw [Nat.mul_div_cancel_left g (by norm_num)]
  push_cast
  field_simp
  ring

theorem gyroidCell_center_ne_nil (G : ℕ) (hGe : G % 2 = 0) (hGpos : 0 < G)
    (level bcol : ℝ) (i : ℕ)
    (hclose : |Real.sin (((i : ℝ) / (G : ℝ) - 0.5) * 4) - level| < 0.05) :
    gyroidCell G level bcol i (G / 2) (G / 2) ≠ [] := by
  have hhalf := gyroid_half_zero G hGe hGpos
  simp only [gyroidCell, hhalf]
  rw [Real.sin_zero, Real.cos_zero]
  simp only [mul_one, zero_mul, one_mul, add_zero, mul_zero]
  rw [if_pos hclose]
  simp

/-- For every time and every reachable multiplier the gyroid stream is
nonempty: its level lies in [-1/2, 1/2] and the diagonal row
`y = z = 0` of the grid passes within the 0.05 threshold of it. -/
theorem gyroid_nonempty (qm : ℤ) (hq : qm = 1 ∨ qm = 2 ∨ qm = 4 ∨ qm = 8) (t : ℝ) :
    generateGyroid qm t ≠ [] := by
  obtain ⟨hG1, hG2, hGe⟩ := gyroidGrid_facts qm hq
  have hL1 : -(1 / 2) ≤ Real.sin (t * 0.6) * 0.5 := by
    have := Real.neg_one_le_sin (t * 0.6)
    linarith
  have hL2 : Real.sin (t * 0.6) * 0.5 ≤ 1 / 2 := by
    have := Real.sin_le_one (t * 0.6)
    linarith
  obtain ⟨i, hiG, hiv⟩ := sin_grid_hits (gyroidGrid qm) hG1 hG2
    (Real.sin (t * 0.6) * 0.5) hL1 hL2
  unfold generateGyroid
  apply flatMap_ne_nil (List.mem_range.mpr hiG)
  apply flatMap_ne_nil (List.mem_range.mpr (show gyroidGrid qm / 2 < gyroidGrid qm by omega))
  apply flatMap_ne_nil (List.mem_range.mpr (show gyroidGrid qm / 2 < gyroidGrid qm by omega))
  exact gyroidCell_center_ne_nil (gyroidGrid qm) hGe (by omega) _ _ i
    (lt_of_le_of_lt hiv (by norm_num))

/-! ### Loop-shape helpers -/

theorem single_loop_shape (n : ℕ) (f : ℕ → List ℝ) (hn : 0 < n)
    (hf : ∀ i, (f i).length = 6) :
    ((List.range n).flatMap f).length % 6 = 0 ∧ 0 < ((List.range n).flatMap f).length := by
  have hlen := flatMap_length_const (List.range n) f 6 (fun a _ => hf a)
  rw [List.length_range] at hlen
  constructor
  · rw [hlen]
    omega
  · rw [hlen]
    omega

theorem double_loop_shape (n m : ℕ) (f : ℕ → ℕ → List ℝ) (hn : 0 < n) (hm : 0 < m)
    (hf : ∀ i j, (f i j).length = 6) :
    (((List.range n).flatMap fun i => (List.range m).flatMap fun j => f i j)).length % 6 = 0 ∧
    0 < (((List.range n).flatMap fun i => (List.range m).flatMap fun j => f i j)).length := by
  have hlen := flatMap_length_const (List.range n)
    (fun i => (List.range m).flatMap fun j => f i j) (m * 6)
    (fun i _ => by
      rw [flatMap_length_const (List.range m) (fun j => f i j) 6 (fun j _ => hf i j)]
      simp)
  rw [List.length_range] at hlen
  constructor
  · rw [hlen, show n * (m * 6) = n * m * 6 from by ring]
    exact Nat.mul_mod_left _ _
  · rw [hlen]
    exact Nat.mul_pos hn (Nat.mul_pos hm (by norm_num))

/-! ### Claim C2: stream length shape for every mode -/

/-- C2: for every mode 0..15, every time, every quality level and any
mass state, the generated stream length is divisible by 6 and strictly
positive; in particular the gyroid threshold test admits at least one
voxel at every time and quality. -/
theorem c2_stream_shape (mode q : ℤ) (t cm md : ℝ) (h0 : 0 ≤ mode) (h15 : mode ≤ 15) :
    (generate mode q t cm md).length % 6 = 0 ∧ 0 < (generate mode q t cm md).length := by
  have hqm := getQualityMultiplier_pos q
  interval_cases mode
  · rw [generate_mode0]
    unfold generateParametricSpiral
    exact single_loop_shape _ _ (count_toNat_pos 1000 _ (by norm_num) hqm) (fun i => rfl)
  · rw [generate_mode1]
    unfold generateLissajous
    exact single_loop_shape _ _ (count_toNat_pos 2000 _ (by norm_num) hqm) (fun i => rfl)
  · rw [generate_mode2]
    unfold generate3DHelix
    exact single_loop_shape _ _ (count_toNat_pos 1500 _ (by norm_num) hqm) (fun i => rfl)
  · rw [generate_mode3]
    unfold generateSineWaveSurface
    exact double_loop_shape _ _ _ (floor_grid_pos 80 _ (by norm_num) hqm)
      (floor_grid_pos 80 _ (by norm_num) hqm) (fun i j => rfl)
  · rw [generate_mode4]
    unfold generateTorus
    exact double_loop_shape _ _ _ (count_toNat_pos 60 _ (by norm_num) hqm)
      (count_toNat_pos 40 _ (by norm_num) hqm) (fun i j => rfl)
  · rw [generate_mode5]
    unfold generateHypotrochoid
    exact single_loop_shape _ _ (count_toNat_pos 2000 _ (by norm_num) hqm) (fun i => rfl)
  · rw [generate_mode6]
    unfold generateSuperformula
    exact single_loop_shape _ _ (count_toNat_pos 1000 _ (by norm_num) hqm) (fun i => rfl)
  · rw [generate_mode7]
    unfold generateLorenzAttractor
    exact single_loop_shape _ _ (count_toNat_pos 5000 _ (by norm_num) hqm) (fun i => rfl)
  · rw [generate_mode8]
    unfold generateKleinBottle
    exact double_loop_shape _ _ _ (count_toNat_pos 100 _ (by norm_num) hqm)
      (count_toNat_pos 50 _ (by norm_num) hqm) (fun i j => rfl)
  · rw [generate_mode9]
    constructor
    · unfold generateGyroid
      apply flatMap_length_mod6
      intro a _
      apply flatMap_length_mod6
      intro b _
      apply flatMap_length_mod6
      intro c _
      have hcl := gyroidCell_length (gyroidGrid (getQualityMultiplier q))
        (Real.sin (t * 0.6) * 0.5) (0.5 + 0.5 * Real.sin t) a b c
      show (gyroidCell (gyroidGrid (getQualityMultiplier q))
        (Real.sin (t * 0.6) * 0.5) (0.5 + 0.5 * Real.sin t) a b c).length % 6 = 0
      omega
    · exact List.length_pos.mpr (gyroid_nonempty _ (getQualityMultiplier_cases q) t)
  · rw [generate_mode10]
    unfold generateSphericalHarmonic
    exact double_loop_shape _ _ _ (Nat.succ_pos _) (Nat.succ_pos _) (fun i j => rfl)
  · rw [generate_mode11]
    unfold generateFractalZoom
    refine double_loop_shape _ _ _ ?hp ?hp2 (fun i j => rfl)
    · unfold fractalRes
      exact floor_grid_pos 200 _ (by norm_num) hqm
    · unfold fractalRes
      exact floor_grid_pos 200 _ (by norm_num) hqm
  · rw [generate_mode12]
    unfold generatePhyllotaxis
    exact single_loop_shape _ _ (count_toNat_pos 1000 _ (by norm_num) hqm) (fun i => rfl)
  · rw [generate_mode13]
    unfold generateTesseract4D
    exact single_loop_shape _ _ (by norm_num) (fun i => rfl)
  · rw [generate_mode14]
    unfold generateWaveInterference
    refine double_loop_shape _ _ _ ?wp ?wp2 (fun i j => rfl)
    · unfold waveGridSize
      exact floor_grid_pos 100 _ (by norm_num) hqm
    · unfold waveGridSize
      exact floor_grid_pos 100 _ (by norm_num) hqm
  · rw [generate_mode15, gravSpacetime_length]
    norm_num

/-- Witness for C2 at a concrete mode, quality, time and mass. -/
theorem c2_stream_shape_witness :
    (generate 9 3 0 0 1).length % 6 = 0 ∧ 0 < (generate 9 3 0 0 1).length :=
  c2_stream_shape 9 3 0 0 1 (by norm_num) (by norm_num)

/-! ### Claim C7: mode 15 ignores the quality level -/

/-- C7: the gravitational-curvature stream is identical across any two
quality levels (the generator never reads the quality multiplier), and
is built from an 80 x 80 surface grid plus 15 overlay line sets with
27 vertical and 27 horizontal samples each (every 3rd of 80
rows/columns): 6 * (80 * 80 + 15 * (27 + 27)) floats in total. -/
theorem c7_grav_quality_independent :
    (∀ (qa qb : ℤ) (t cm md : ℝ), generate 15 qa t cm md = generate 15 qb t cm md) ∧
    (∀ cm md tArg : ℝ, (generateGravitationalSpacetime cm md tArg).length =
      6 * (80 * 80 + 15 * (27 + 27))) := by
  constructor
  · intro qa qb t cm md
    norm_num [generate]
  · exact gravSpacetime_length

/-! ### Claim C9: the tesseract perspective divisor -/

theorem sqrt_two_lt : Real.sqrt 2 < 1.5 := by
  nlinarith [Real.sq_sqrt (show (0 : ℝ) ≤ 2 from by norm_num), Real.sqrt_nonneg 2]

theorem one_lt_sqrt_two : (1 : ℝ) < Real.sqrt 2 := by
  nlinarith [Real.sq_sqrt (show (0 : ℝ) ≤ 2 from by norm_num), Real.sqrt_nonneg 2]

/-- C9 counterexample: the claim bounds the rotated `w` coordinate by
[-1, 1], but at `t = 5 π / 6` (rotation angle π/4) corner 9 — the one
with `x = w = 1` — has rotated `w = sin(π/4) + cos(π/4) = √2 > 1`. -/
theorem c9_w_exceeds_one_counterexample :
    tesseractW (5 * π / 6) 9 = Real.sqrt 2 ∧ (1 : ℝ) < Real.sqrt 2 := by
  refine ⟨?_, one_lt_sqrt_two⟩
  unfold tesseractW tesseractCoord
  rw [if_pos (by decide), if_pos (by decide)]
  have harg : 5 * π / 6 * 0.3 = π / 4 := by ring
  rw [harg, Real.sin_pi_div_four, Real.cos_pi_div_four]
  ring

/-- C9 amended: after the x-w rotation by `0.3 t` every corner's `w`
coordinate lies in [-√2, √2] (not [-1, 1] as claimed: see the
counterexample), and the perspective-divide denominator
`dist - w = 3 + sin(0.5 t) - w` is still strictly positive for every
corner at every time, since `dist ≥ 2 > √2`. -/
theorem c9_tesseract_divisor_positive :
    (∀ (t : ℝ) (i : ℕ), |tesseractW t i| ≤ Real.sqrt 2) ∧
    (∀ (t : ℝ) (i : ℕ), 0 < tesseractDist t - tesseractW t i) := by
  have habs : ∀ (t : ℝ) (i : ℕ), |tesseractW t i| ≤ Real.sqrt 2 := by
    intro t i
    have hsc := Real.sin_sq_add_cos_sq (t * 0.3)
    have key : (tesseractW t i) ^ 2 ≤ 2 := by
      unfold tesseractW tesseractCoord
      split_ifs <;>
        nlinarith [sq_nonneg (Real.sin (t * 0.3) + Real.cos (t * 0.3)),
          sq_nonneg (Real.sin (t * 0.3) - Real.cos (t * 0.3))]
    calc |tesseractW t i| = Real.sqrt ((tesseractW t i) ^ 2) :=
          (Real.sqrt_sq_eq_abs _).symm
      _ ≤ Real.sqrt 2 := Real.sqrt_le_sqrt key
  refine ⟨habs, fun t i => ?_⟩
  have h2 : -1 ≤ Real.sin (t * 0.5) := Real.neg_one_le_sin _
  have h3 : tesseractW t i ≤ Real.sqrt 2 := le_of_abs_le (habs t i)
  have h4 := sqrt_two_lt
  unfold tesseractDist
  linarith

/-! ### Claim C10: the superformula scenario at t = 0 -/

/-- C10 counterexample: at `t = 0` the superformula exponent `n2` is
`1 + 2 |cos 0| = 3`, not 1 as the claim states. -/
theorem c10_n2_counterexample : superN2 0 = 3 ∧ (3 : ℝ) ≠ 1 := by
  constructor
  · unfold superN2
    rw [show (0 : ℝ) * 0.5 = 0 from by ring, Real.cos_zero]
    norm_num
  · norm_num

/-- C10 amended: at `t = 0` the superformula parameters are `m = 6`,
`n1 = 0.3`, `n2 = 3` (not 1), `n3 = 1`, and the first emitted vertex
position still equals (1, 0, 0), because at `φ = 0` the radius
`(|1|^n2 + |0|^n3)^(-1/n1) = 1` regardless of `n2`. -/
theorem c10_superformula_first_vertex :
    superM 0 = 6 ∧ superN1 0 = 0.3 ∧ superN2 0 = 3 ∧ superN3 0 = 1 ∧
    (∀ q : ℤ, (generate 6 q 0 0 1).take 3 = [1, 0, 0]) := by
  have hM : superM 0 = 6 := by
    unfold superM
    rw [show (0 : ℝ) * 0.4 = 0 from by ring, Real.sin_zero]
    ring
  have hN1 : superN1 0 = 0.3 := by
    unfold superN1
    rw [show (0 : ℝ) * 0.6 = 0 from by ring, Real.sin_zero]
    norm_num
  have hN2 : superN2 0 = 3 := by
    unfold superN2
    rw [show (0 : ℝ) * 0.5 = 0 from by ring, Real.cos_zero]
    norm_num
  have hN3 : superN3 0 = 1 := by
    unfold superN3
    rw [show (0 : ℝ) * 0.8 = 0 from by ring, Real.sin_zero]
    norm_num
  refine ⟨hM, hN1, hN2, hN3, fun q => ?_⟩
  rw [generate_mode6]
  obtain ⟨k, hk⟩ : ∃ k, (1000 * getQualityMultiplier q).toNat = k + 1 :=
    ⟨(1000 * getQualityMultiplier q).toNat - 1, by
      have := count_toNat_pos 1000 _ (by norm_num) (getQualityMultiplier_pos q)
      omega⟩
  unfold generateSuperformula
  rw [hk, List.range_succ_eq_map, List.flatMap_cons]
  have hvert : superformulaVertex (k + 1) 0 0 =
      [1, 0, 0, 1, 0.3, 0.5] := by
    simp only [superformulaVertex, Nat.cast_zero, zero_div, zero_mul, mul_zero,
      Real.cos_zero, Real.sin_zero, abs_one, abs_zero, Real.one_rpow, div_one]
    rw [hN3, Real.rpow_one]
    norm_num [Real.one_rpow]
  rw [← hk, hk, hvert]
  rfl

/-! ### Distinguishing streams: helpers -/

theorem list6_ne_pos0 {a0 a1 a2 a3 a4 a5 b0 b1 b2 b3 b4 b5 : ℝ} (h : a0 ≠ b0) :
    ([a0, a1, a2, a3, a4, a5] : List ℝ) ≠ [b0, b1, b2, b3, b4, b5] := by
  intro he
  simp only [List.cons.injEq] at he
  exact h he.1

theorem list6_ne_pos1 {a0 a1 a2 a3 a4 a5 b0 b1 b2 b3 b4 b5 : ℝ} (h : a1 ≠ b1) :
    ([a0, a1, a2, a3, a4, a5] : List ℝ) ≠ [b0, b1, b2, b3, b4, b5] := by
  intro he
  simp only [List.cons.injEq] at he
  exact h he.2.1

theorem list6_ne_pos2 {a0 a1 a2 a3 a4 a5 b0 b1 b2 b3 b4 b5 : ℝ} (h : a2 ≠ b2) :
    ([a0, a1, a2, a3, a4, a5] : List ℝ) ≠ [b0, b1, b2, b3, b4, b5] := by
  intro he
  simp only [List.cons.injEq] at he
  exact h he.2.2.1

theorem list6_ne_pos3 {a0 a1 a2 a3 a4 a5 b0 b1 b2 b3 b4 b5 : ℝ} (h : a3 ≠ b3) :
    ([a0, a1, a2, a3, a4, a5] : List ℝ) ≠ [b0, b1, b2, b3, b4, b5] := by
  intro he
  simp only [List.cons.injEq] at he
  exact h he.2.2.2.1

theorem list6_ne_pos4 {a0 a1 a2 a3 a4 a5 b0 b1 b2 b3 b4 b5 : ℝ} (h : a4 ≠ b4) :
    ([a0, a1, a2, a3, a4, a5] : List ℝ) ≠ [b0, b1, b2, b3, b4, b5] := by
  intro he
  simp only [List.cons.injEq] at he
  exact h he.2.2.2.2.1

theorem list6_ne_pos5 {a0 a1 a2 a3 a4 a5 b0 b1 b2 b3 b4 b5 : ℝ} (h : a5 ≠ b5) :
    ([a0, a1, a2, a3, a4, a5] : List ℝ) ≠ [b0, b1, b2, b3, b4, b5] := by
  intro he
  simp only [List.cons.injEq] at he
  exact h he.2.2.2.2.2.1

/-- Two single-loop streams differ when some common iteration's block
differs (given equal per-iteration block lengths). -/
theorem single_loop_ne (n : ℕ) (f g : ℕ → List ℝ) (i : ℕ) (hi : i < n)
    (hlen : ∀ a, (f a).length = (g a).length) (hne : f i ≠ g i) :
    (List.range n).flatMap f ≠ (List.range n).flatMap g := by
  intro h
  exact hne (flatMap_cancel (List.range n) f g (fun a _ => hlen a) h i (List.mem_range.mpr hi))

/-- Two doubly nested streams of 6-float blocks differ when some
common cell's block differs. -/
theorem double_loop_ne (n m : ℕ) (f g : ℕ → ℕ → List ℝ) (i j : ℕ) (hi : i < n) (hj : j < m)
    (hf6 : ∀ a b, (f a b).length = 6) (hg6 : ∀ a b, (g a b).length = 6)
    (hne : f i j ≠ g i j) :
    ((List.range n).flatMap fun a => (List.range m).flatMap fun b => f a b) ≠
    ((List.range n).flatMap fun a => (List.range m).flatMap fun b => g a b) := by
  intro h
  have houter := flatMap_cancel (List.range n)
    (fun a => (List.range m).flatMap fun b => f a b)
    (fun a => (List.range m).flatMap fun b => g a b)
    (fun a _ => by
      rw [flatMap_length_const (List.range m) (fun b => f a b) 6 (fun b _ => hf6 a b),
        flatMap_length_const (List.range m) (fun b => g a b) 6 (fun b _ => hg6 a b)])
    h i (List.mem_range.mpr hi)
  have hinner := flatMap_cancel (List.range m) (fun b => f i b) (fun b => g i b)
    (fun b _ => by rw [hf6 i b, hg6 i b]) houter j (List.mem_range.mpr hj)
  exact hne hinner

/-! ### Per-mode time dependence -/

theorem spiral_time_dep (qm : ℤ) (hqm : 1 ≤ qm) :
    generateParametricSpiral qm 0 ≠ generateParametricSpiral qm π := by
  unfold generateParametricSpiral
  apply single_loop_ne _ _ _ 0 (count_toNat_pos 1000 _ (by norm_num) hqm)
  · intro a
    rfl
  simp only [spiralVertex, Nat.cast_zero, zero_div, zero_mul, mul_zero]
  apply list6_ne_pos1
  rw [show (0 : ℝ) + 0 = 0 from by ring, show (0 : ℝ) + π * 0.5 = π / 2 from by ring,
    Real.sin_zero, Real.sin_pi_div_two]
  norm_num

theorem lissajous_time_dep (qm : ℤ) (hqm : 1 ≤ qm) :
    generateLissajous qm 0 ≠ generateLissajous qm (π / 2) := by
  unfold generateLissajous
  apply single_loop_ne _ _ _ 0 (count_toNat_pos 2000 _ (by norm_num) hqm)
  · intro a
    rfl
  simp only [lissajousVertex, Nat.cast_zero, zero_div, zero_mul, mul_zero]
  apply list6_ne_pos0
  rw [show (0 : ℝ) + 0 = 0 from by ring, show (0 : ℝ) + π / 2 = π / 2 from by ring,
    Real.sin_zero, Real.sin_pi_div_two]
  norm_num

theorem helix_time_dep (qm : ℤ) (hqm : 1 ≤ qm) :
    generate3DHelix qm 0 ≠ generate3DHelix qm π := by
  unfold generate3DHelix
  apply single_loop_ne _ _ _ 0 (count_toNat_pos 1500 _ (by norm_num) hqm)
  · intro a
    rfl
  simp only [helixVertex, Nat.cast_zero, zero_div, zero_mul, mul_zero]
  apply list6_ne_pos0
  rw [show π * 2 = 2 * π from by ring, show (0 : ℝ) + 0 = 0 from by ring,
    show (0 : ℝ) + π = π from by ring,
    Real.sin_two_pi, Real.sin_zero, Real.cos_zero, Real.cos_pi]
  norm_num

theorem superformula_time_dep (qm : ℤ) (hqm : 1 ≤ qm) :
    generateSuperformula qm 0 ≠ generateSuperformula qm (π / 2) := by
  unfold generateSuperformula
  apply single_loop_ne _ _ _ 0 (count_toNat_pos 1000 _ (by norm_num) hqm)
  · intro a
    simp only [superformulaVertex, List.length_cons, List.length_nil]
  simp only [superformulaVertex, Nat.cast_zero, zero_div, zero_mul, mul_zero]
  apply list6_ne_pos5
  rw [show (0 : ℝ) + 0 = 0 from by ring, show π / 2 + 0 = π / 2 from by ring,
    Real.sin_zero, Real.sin_pi_div_two]
  norm_num

theorem phyllotaxis_time_dep (qm : ℤ) (hqm : 1 ≤ qm) :
    generatePhyllotaxis qm 0 ≠ generatePhyllotaxis qm (π / 2) := by
  unfold generatePhyllotaxis
  apply single_loop_ne _ _ _ 0 (count_toNat_pos 1000 _ (by norm_num) hqm)
  · intro a
    simp only [phyllotaxisVertex, List.length_cons, List.length_nil]
  simp only [phyllotaxisVertex, Nat.cast_zero, zero_mul]
  apply list6_ne_pos3
  rw [show (0 : ℝ) + 0 = 0 from by ring, show (0 : ℝ) + π / 2 = π / 2 from by ring,
    Real.sin_zero, Real.sin_pi_div_two]
  norm_num

theorem torus_time_dep (qm : ℤ) (hqm : 1 ≤ qm) :
    generateTorus qm 0 ≠ generateTorus qm π := by
  unfold generateTorus
  apply double_loop_ne _ _ _ _ 0 0 (count_toNat_pos 60 _ (by norm_num) hqm)
    (count_toNat_pos 40 _ (by norm_num) hqm)
  · intro a b
    simp only [torusVertex, List.length_cons, List.length_nil]
  · intro a b
    simp only [torusVertex, List.length_cons, List.length_nil]
  simp only [torusVertex, Nat.cast_zero, zero_div, zero_mul, mul_zero, zero_add,
    Real.sin_zero, Real.cos_zero]
  apply list6_ne_pos0
  rw [show π * 2 = 2 * π from by ring, Real.sin_two_pi, Real.cos_pi]
  norm_num

theorem klein_time_dep (qm : ℤ) (hqm : 1 ≤ qm) :
    generateKleinBottle qm 0 ≠ generateKleinBottle qm (π / 2) := by
  unfold generateKleinBottle
  apply double_loop_ne _ _ _ _ 0 0 (count_toNat_pos 100 _ (by norm_num) hqm)
    (count_toNat_pos 50 _ (by norm_num) hqm)
  · intro a b
    simp only [kleinVertex, List.length_cons, List.length_nil]
  · intro a b
    simp only [kleinVertex, List.length_cons, List.length_nil]
  simp only [kleinVertex, Nat.cast_zero, zero_div, zero_mul, mul_zero,
    Real.sin_zero, Real.cos_zero, Real.sin_pi_div_two]
  apply list6_ne_pos0
  norm_num

theorem wave_time_dep (qm : ℤ) (hqm : 1 ≤ qm) :
    generateWaveInterference qm 0 ≠ generateWaveInterference qm (π / 2) := by
  unfold generateWaveInterference
  apply double_loop_ne _ _ _ _ 0 0 ?hg ?hg2
  case hg =>
    unfold waveGridSize
    exact floor_grid_pos 100 _ (by norm_num) hqm
  case hg2 =>
    unfold waveGridSize
    exact floor_grid_pos 100 _ (by norm_num) hqm
  · intro a b
    simp only [waveVertex, List.length_cons, List.length_nil]
  · intro a b
    simp only [waveVertex, List.length_cons, List.length_nil]
  simp only [waveVertex, Real.sin_zero, Real.sin_pi_div_two]
  apply list6_ne_pos5
  norm_num

theorem sqrt_nine_half_bounds :
    0 < Real.sqrt (9 / 2) ∧ Real.sqrt (9 / 2) < 2.2 := by
  have h1 := Real.sq_sqrt (show (0 : ℝ) ≤ 9 / 2 from by norm_num)
  have h2 := Real.sqrt_nonneg (9 / 2 : ℝ)
  constructor
  · exact Real.sqrt_pos.mpr (by norm_num)
  · nlinarith

theorem sineSurface_time_dep (qm : ℤ) (hqm : 1 ≤ qm) :
    generateSineWaveSurface qm 0 ≠ generateSineWaveSurface qm π := by
  unfold generateSineWaveSurface
  apply double_loop_ne _ _ _ _ 0 0 ?hg ?hg2
  case hg =>
    unfold sineGridSize
    exact floor_grid_pos 80 _ (by norm_num) hqm
  case hg2 =>
    unfold sineGridSize
    exact floor_grid_pos 80 _ (by norm_num) hqm
  · intro a b
    simp only [sineSurfaceVertex, List.length_cons, List.length_nil]
  · intro a b
    simp only [sineSurfaceVertex, List.length_cons, List.length_nil]
  simp only [sineSurfaceVertex, Nat.cast_zero, zero_div, zero_mul, zero_sub, add_zero]
  apply list6_ne_pos4
  have hd : Real.sqrt (-(3 / 2 : ℝ) * -(3 / 2) + -(3 / 2) * -(3 / 2)) = Real.sqrt (9 / 2) := by
    norm_num
  rw [hd, Real.sin_add_pi]
  obtain ⟨hs1, hs2⟩ := sqrt_nine_half_bounds
  have hpi : (3.141592 : ℝ) < π := Real.pi_gt_d6
  have hsin : 0 < Real.sin (Real.sqrt (9 / 2) * 0.5) := by
    apply Real.sin_pos_of_pos_of_lt_pi
    · positivity
    · nlinarith
  intro h
  nlinarith

theorem hypotrochoid_time_dep (qm : ℤ) (hqm : 1 ≤ qm) :
    generateHypotrochoid qm 0 ≠ generateHypotrochoid qm (2 * π) := by
  unfold generateHypotrochoid
  apply single_loop_ne _ _ _ 0 (count_toNat_pos 2000 _ (by norm_num) hqm)
  · intro a
    simp only [hypotrochoidVertex, List.length_cons, List.length_nil]
  simp only [hypotrochoidVertex, Nat.cast_zero, zero_div, zero_mul, mul_zero,
    Real.sin_zero, Real.cos_zero, mul_one]
  apply list6_ne_pos0
  rw [show 2 * π * 0.5 = π from by ring, Real.sin_pi,
    show 2 * π * 0.7 = 2 * π - 0.6 * π from by ring, Real.cos_two_pi_sub,
    show 2 * π * 1.3 = 0.6 * π + 2 * π from by ring, Real.sin_add_two_pi]
  have hpi := Real.pi_pos
  have hcos : Real.cos (0.6 * π) ≤ 0 :=
    Real.cos_nonpos_of_pi_div_two_le_of_le (by linarith) (by linarith)
  have hsin : 0 < Real.sin (0.6 * π) :=
    Real.sin_pos_of_pos_of_lt_pi (by linarith) (by linarith)
  intro h
  nlinarith

theorem lorenz_time_dep (qm : ℤ) (hqm : 1 ≤ qm) :
    generateLorenzAttractor qm 0 ≠ generateLorenzAttractor qm (5 * π / 3) := by
  unfold generateLorenzAttractor
  apply single_loop_ne _ _ _ 0 (count_toNat_pos 5000 _ (by norm_num) hqm)
  · intro a
    simp only [lorenzVertex, List.length_cons, List.length_nil]
  simp only [lorenzVertex, lorenzTraj, zero_mul, Real.sin_zero, Real.cos_zero]
  apply list6_ne_pos0
  rw [show 5 * π / 3 * 0.3 = π / 2 from by ring, Real.sin_pi_div_two]
  norm_num

theorem tesseract_time_dep : generateTesseract4D 0 ≠ generateTesseract4D (5 * π / 3) := by
  unfold generateTesseract4D
  apply single_loop_ne _ _ _ 0 (by norm_num)
  · intro a
    simp only [tesseractVertex, List.length_cons, List.length_nil]
  have hc : ∀ d : ℕ, tesseractCoord 0 d = -1 := by
    intro d
    unfold tesseractCoord
    rw [if_neg]
    simp [Nat.zero_and]
  simp only [tesseractVertex, tesseractV0, tesseractW, tesseractDist, hc,
    zero_mul, Real.sin_zero, Real.cos_zero]
  apply list6_ne_pos0
  rw [show 5 * π / 3 * 0.3 = π / 2 from by ring,
    show 5 * π / 3 * 0.5 = π - π / 6 from by ring,
    Real.sin_pi_div_two, Real.cos_pi_div_two, Real.sin_pi_sub, Real.sin_pi_div_six]
  norm_num

theorem flatMap_length_congr {α : Type} (l : List α) (f g : α → List ℝ)
    (h : ∀ a ∈ l, (f a).length = (g a).length) :
    (l.flatMap f).length = (l.flatMap g).length := by
  induction l with
  | nil => simp
  | cons a l ih =>
    simp only [List.flatMap_cons, List.length_append]
    rw [h a (List.mem_cons_self a l), ih (fun b hb => h b (List.mem_cons_of_mem a hb))]

theorem gyroidCell_length_bcol (G : ℕ) (lvl b1 b2 : ℝ) (i j k : ℕ) :
    (gyroidCell G lvl b1 i j k).length = (gyroidCell G lvl b2 i j k).length := by
  simp only [gyroidCell]
  split_ifs <;> rfl

theorem gyroidCell_center_eq (G : ℕ) (hGe : G % 2 = 0) (hGpos : 0 < G)
    (L b1 b2 : ℝ) (i : ℕ)
    (hclose : |Real.sin (((i : ℝ) / (G : ℝ) - 0.5) * 4) - L| < 0.05)
    (h : gyroidCell G L b1 i (G / 2) (G / 2) = gyroidCell G L b2 i (G / 2) (G / 2)) :
    b1 = b2 := by
  have hhalf := gyroid_half_zero G hGe hGpos
  simp only [gyroidCell, hhalf, Real.sin_zero, Real.cos_zero, mul_one, zero_mul,
    one_mul, add_zero, mul_zero] at h
  rw [if_pos hclose, if_pos hclose] at h
  simp only [List.cons.injEq] at h
  exact h.2.2.2.2.2.1

theorem gyroid_time_dep (qm : ℤ) (hq : qm = 1 ∨ qm = 2 ∨ qm = 4 ∨ qm = 8) :
    generateGyroid qm 0 ≠ generateGyroid qm (10 * π / 3) := by
  obtain ⟨hG1, hG2, hGe⟩ := gyroidGrid_facts qm hq
  have hlv1 : Real.sin ((0 : ℝ) * 0.6) * 0.5 = 0 := by
    rw [zero_mul, Real.sin_zero, zero_mul]
  have hlv2 : Real.sin ((10 * π / 3) * 0.6) * 0.5 = 0 := by
    rw [show (10 * π / 3) * 0.6 = 2 * π from by ring, Real.sin_two_pi, zero_mul]
  have hb1 : (0.5 : ℝ) + 0.5 * Real.sin 0 = 0.5 := by
    rw [Real.sin_zero, mul_zero, add_zero]
  have hb2 : (0.5 : ℝ) + 0.5 * Real.sin (10 * π / 3) = 0.5 - Real.sqrt 3 / 4 := by
    rw [show 10 * π / 3 = π / 3 + π + 2 * π from by ring, Real.sin_add_two_pi,
      Real.sin_add_pi, Real.sin_pi_div_three]
    ring
  obtain ⟨i, hiG, hiv⟩ := sin_grid_hits (gyroidGrid qm) hG1 hG2 0 (by norm_num) (by norm_num)
  have hclose : |Real.sin (((i : ℝ) / (gyroidGrid qm : ℝ) - 0.5) * 4) - 0| < 0.05 :=
    lt_of_le_of_lt hiv (by norm_num)
  unfold generateGyroid
  rw [hlv1, hlv2, hb1, hb2]
  intro heq
  have hlen2 : ∀ a b : ℕ,
      (((List.range (gyroidGrid qm)).flatMap fun k =>
        gyroidCell (gyroidGrid qm) 0 0.5 a b k)).length =
      (((List.range (gyroidGrid qm)).flatMap fun k =>
        gyroidCell (gyroidGrid qm) 0 (0.5 - Real.sqrt 3 / 4) a b k)).length := by
    intro a b
    exact flatMap_length_congr _ _ _ (fun c _ => gyroidCell_length_bcol _ _ _ _ a b c)
  have h1 := flatMap_cancel (List.range (gyroidGrid qm))
    (fun a => (List.range (gyroidGrid qm)).flatMap fun b =>
      (List.range (gyroidGrid qm)).flatMap fun c => gyroidCell (gyroidGrid qm) 0 0.5 a b c)
    (fun a => (List.range (gyroidGrid qm)).flatMap fun b =>
      (List.range (gyroidGrid qm)).flatMap fun c =>
        gyroidCell (gyroidGrid qm) 0 (0.5 - Real.sqrt 3 / 4) a b c)
    (fun a _ => flatMap_length_congr _ _ _ (fun b _ => hlen2 a b))
    heq i (List.mem_range.mpr hiG)
  have h2 := flatMap_cancel (List.range (gyroidGrid qm))
    (fun b => (List.range (gyroidGrid qm)).flatMap fun c =>
      gyroidCell (gyroidGrid qm) 0 0.5 i b c)
    (fun b => (List.range (gyroidGrid qm)).flatMap fun c =>
      gyroidCell (gyroidGrid qm) 0 (0.5 - Real.sqrt 3 / 4) i b c)
    (fun b _ => hlen2 i b)
    h1 (gyroidGrid qm / 2) (List.mem_range.mpr (by omega))
  have h3 := flatMap_cancel (List.range (gyroidGrid qm))
    (fun c => gyroidCell (gyroidGrid qm) 0 0.5 i (gyroidGrid qm / 2) c)
    (fun c => gyroidCell (gyroidGrid qm) 0 (0.5 - Real.sqrt 3 / 4) i (gyroidGrid qm / 2) c)
    (fun c _ => gyroidCell_length_bcol _ _ _ _ i (gyroidGrid qm / 2) c)
    h2 (gyroidGrid qm / 2) (List.mem_range.mpr (by omega))
  have hb := gyroidCell_center_eq (gyroidGrid qm) hGe (by omega) 0 0.5
    (0.5 - Real.sqrt 3 / 4) i hclose h3
  have h3pos : 0 < Real.sqrt 3 := Real.sqrt_pos.mpr (by norm_num)
  linarith

theorem sphericalL_zero : sphericalL 0 = 2 := by
  unfold sphericalL
  rw [show (0 : ℝ) * 0.3 = 0 from by ring, Real.sin_zero, abs_zero, mul_zero, Nat.floor_zero]

theorem sphericalL_five_pi_quarter : sphericalL (5 * π / 4) = 3 := by
  unfold sphericalL
  rw [show 5 * π / 4 * 0.3 = 3 * π / 8 from by ring]
  have hpi := Real.pi_pos
  have hlow : (1 : ℝ) / 2 ≤ Real.sin (3 * π / 8) := by
    have h := Real.sin_le_sin_of_le_of_le_pi_div_two
      (x := π / 6) (y := 3 * π / 8) (by linarith) (by linarith) (by linarith)
    rw [Real.sin_pi_div_six] at h
    exact h
  have hhigh : Real.sin (3 * π / 8) < 1 := by
    have h := Real.sin_lt_sin_of_lt_of_le_pi_div_two
      (x := 3 * π / 8) (y := π / 2) (by linarith) (by linarith) (by linarith)
    rw [Real.sin_pi_div_two] at h
    exact h
  have habs : |Real.sin (3 * π / 8)| = Real.sin (3 * π / 8) :=
    abs_of_nonneg (by linarith)
  rw [habs]
  have hfloor : ⌊2 * Real.sin (3 * π / 8)⌋₊ = 1 := by
    rw [Nat.floor_eq_iff (by linarith)]
    constructor
    · push_cast
      linarith
    · push_cast
      linarith
  rw [hfloor]

theorem sin_half_pos : 0 < Real.sin (1 / 2) := by
  have hpi : (3.141592 : ℝ) < π := Real.pi_gt_d6
  exact Real.sin_pos_of_pos_of_lt_pi (by norm_num) (by linarith)

theorem spherical_time_dep (qm : ℤ) (hqm : 1 ≤ qm) :
    generateSphericalHarmonic qm 0 ≠ generateSphericalHarmonic qm (5 * π / 4) := by
  unfold generateSphericalHarmonic
  apply double_loop_ne _ _ _ _ 0 0 (Nat.succ_pos _) (Nat.succ_pos _)
  · intro a b
    simp only [sphericalVertex, List.length_cons, List.length_nil]
  · intro a b
    simp only [sphericalVertex, List.length_cons, List.length_nil]
  rw [sphericalL_zero, sphericalL_five_pi_quarter,
    show (0 : ℝ) * 0.4 = 0 from by ring, Real.cos_zero,
    show 5 * π / 4 * 0.4 = π / 2 from by ring, Real.cos_pi_div_two]
  simp only [sphericalVertex, sph_legendre, Nat.cast_zero, zero_div, mul_zero, zero_mul,
    Real.cos_zero, Real.arccos_one, zero_add, abs_zero, abs_one]
  apply list6_ne_pos2
  norm_num
  exact ne_of_gt sin_half_pos

theorem mandelLoop_step (x0 y0 x y : ℝ) (fuel : ℕ) (h : x * x + y * y < 4) :
    mandelLoop x0 y0 (fuel + 1) x y =
      mandelLoop x0 y0 fuel (x * x - y * y + x0) (2 * x * y + y0) + 1 := by
  conv_lhs => unfold mandelLoop
  rw [if_pos h]

theorem mandelLoop_stop (x0 y0 x y : ℝ) (fuel : ℕ) (h : ¬(x * x + y * y < 4)) :
    mandelLoop x0 y0 (fuel + 1) x y = 0 := by
  conv_lhs => unfold mandelLoop
  rw [if_neg h]

/-- The escape count at the grid corner for `t = 0`:
`c = (-1.05, -0.75)` escapes after 3 iterations. -/
theorem mandel_corner_t1 : mandelLoop (-1.05) (-0.75) 100 0 0 = 3 := by
  have s4 : mandelLoop (-1.05) (-0.75) 97 (-1.470525) (-1.5915) = 0 := by
    rw [show (97 : ℕ) = 96 + 1 from rfl]
    exact mandelLoop_stop _ _ _ _ _ (by norm_num)
  have s3 : mandelLoop (-1.05) (-0.75) 98 (-0.51) 0.825 = 1 := by
    rw [show (98 : ℕ) = 97 + 1 from rfl, mandelLoop_step _ _ _ _ _ (by norm_num),
      show (-0.51 : ℝ) * (-0.51) - 0.825 * 0.825 + (-1.05) = -1.470525 from by norm_num,
      show (2 : ℝ) * (-0.51) * 0.825 + (-0.75) = -1.5915 from by norm_num, s4]
  have s2 : mandelLoop (-1.05) (-0.75) 99 (-1.05) (-0.75) = 2 := by
    rw [show (99 : ℕ) = 98 + 1 from rfl, mandelLoop_step _ _ _ _ _ (by norm_num),
      show (-1.05 : ℝ) * (-1.05) - (-0.75) * (-0.75) + (-1.05) = -0.51 from by norm_num,
      show (2 : ℝ) * (-1.05) * (-0.75) + (-0.75) = 0.825 from by norm_num, s3]
  rw [show (100 : ℕ) = 99 + 1 from rfl, mandelLoop_step _ _ _ _ _ (by norm_num),
    show (0 : ℝ) * 0 - 0 * 0 + (-1.05) = -1.05 from by norm_num,
    show (2 : ℝ) * 0 * 0 + (-0.75) = -0.75 from by norm_num, s2]

/-- The escape count at the grid corner for `t = 5π/2`:
`c = (-1.5 - 0.1 √2, -1)` escapes after 2 iterations. -/
theorem mandel_corner_t2 : mandelLoop (-1.5 - 0.1 * Real.sqrt 2) (-1) 100 0 0 = 2 := by
  have hs := Real.sq_sqrt (show (0 : ℝ) ≤ 2 from by norm_num)
  have hsn := Real.sqrt_nonneg 2
  have hlt := sqrt_two_lt
  rw [show (100 : ℕ) = 99 + 1 from rfl, mandelLoop_step _ _ _ _ _ (by norm_num)]
  rw [show (0 : ℝ) * 0 - 0 * 0 + (-1.5 - 0.1 * Real.sqrt 2) = -1.5 - 0.1 * Real.sqrt 2
      from by ring,
    show (2 : ℝ) * 0 * 0 + (-1) = -1 from by ring]
  rw [show (99 : ℕ) = 98 + 1 from rfl, mandelLoop_step _ _ _ _ _ (by nlinarith)]
  rw [show (98 : ℕ) = 97 + 1 from rfl, mandelLoop_stop _ _ _ _ _ ?stop]
  case stop =>
    push_neg
    nlinarith [sq_nonneg ((-1.5 - 0.1 * Real.sqrt 2) * (-1.5 - 0.1 * Real.sqrt 2) -
      (-1 : ℝ) * (-1) + (-1.5 - 0.1 * Real.sqrt 2))]

theorem fractal_time_dep (qm : ℤ) (hqm : 1 ≤ qm) :
    generateFractalZoom qm 0 ≠ generateFractalZoom qm (5 * π / 2) := by
  unfold generateFractalZoom
  apply double_loop_ne _ _ _ _ 0 0 ?fg ?fg2
  case fg =>
    unfold fractalRes
    exact floor_grid_pos 200 _ (by norm_num) hqm
  case fg2 =>
    unfold fractalRes
    exact floor_grid_pos 200 _ (by norm_num) hqm
  · intro a b
    simp only [fractalVertex, List.length_cons, List.length_nil]
  · intro a b
    simp only [fractalVertex, List.length_cons, List.length_nil]
  rw [show (0 : ℝ) * 0.2 = 0 from by ring, show (0 : ℝ) * 0.3 = 0 from by ring,
    show (0 : ℝ) * 0.4 = 0 from by ring,
    show 5 * π / 2 * 0.2 = π / 2 from by ring,
    show 5 * π / 2 * 0.3 = π - π / 4 from by ring,
    show 5 * π / 2 * 0.4 = π from by ring,
    Real.sin_zero, Real.cos_zero, Real.sin_pi_div_two, Real.cos_pi_sub,
    Real.cos_pi_div_four, Real.sin_pi]
  simp only [fractalVertex, Nat.cast_zero, zero_div, zero_sub]
  apply list6_ne_pos1
  rw [show (-(0.5 : ℝ)) * (1.5 + 0.5 * 0) + (-0.5 + 0.2 * 1) = -1.05 from by norm_num,
    show (-(0.5 : ℝ)) * (1.5 + 0.5 * 0) + (0 + 0.2 * 0) = -0.75 from by norm_num,
    show (-(0.5 : ℝ)) * (1.5 + 0.5 * 1) + (-0.5 + 0.2 * -(Real.sqrt 2 / 2)) =
      -1.5 - 0.1 * Real.sqrt 2 from by ring,
    show (-(0.5 : ℝ)) * (1.5 + 0.5 * 1) + (0 + 0.2 * 0) = -1 from by norm_num,
    mandel_corner_t1, mandel_corner_t2]
  norm_num

/-! ### Claim C6: time dependence of the generators -/

/-- C6 counterexample: the claim asserts every mode 0..15 genuinely
depends on the time argument, but mode 15 does not: its C++ body
shadows the time parameter with the radius ratio `t = r / extent` and
never reads the real time, so any two times give identical streams
(here at quality level 2, central mass 1/2, max deformation 1). -/
theorem c6_mode15_static_counterexample :
    ¬ ∃ t1 t2 : ℝ, generate 15 2 t1 (1 / 2) 1 ≠ generate 15 2 t2 (1 / 2) 1 := by
  push_neg
  intro t1 t2
  rw [generate_mode15, generate_mode15]
  unfold generateGravitationalSpacetime
  rfl

/-- C6 amended: for every mode 0..14 (holding quality level, central
mass and max deformation fixed) there exist two times whose generated
vertex streams differ, so those modes animate as `t` advances; mode 15
alone is independent of the time argument. -/
theorem c6_time_dependence :
    (∀ (mode q : ℤ) (cm md : ℝ), 0 ≤ mode → mode ≤ 14 →
      ∃ t1 t2 : ℝ, generate mode q t1 cm md ≠ generate mode q t2 cm md) ∧
    (∀ (q : ℤ) (cm md t1 t2 : ℝ), generate 15 q t1 cm md = generate 15 q t2 cm md) := by
  constructor
  · intro mode q cm md h0 h14
    have hqm := getQualityMultiplier_pos q
    interval_cases mode
    · exact ⟨0, π, by rw [generate_mode0, generate_mode0]; exact spiral_time_dep _ hqm⟩
    · exact ⟨0, π / 2, by rw [generate_mode1, generate_mode1]; exact lissajous_time_dep _ hqm⟩
    · exact ⟨0, π, by rw [generate_mode2, generate_mode2]; exact helix_time_dep _ hqm⟩
    · exact ⟨0, π, by rw [generate_mode3, generate_mode3]; exact sineSurface_time_dep _ hqm⟩
    · exact ⟨0, π, by rw [generate_mode4, generate_mode4]; exact torus_time_dep _ hqm⟩
    · exact ⟨0, 2 * π, by
        rw [generate_mode5, generate_mode5]; exact hypotrochoid_time_dep _ hqm⟩
    · exact ⟨0, π / 2, by
        rw [generate_mode6, generate_mode6]; exact superformula_time_dep _ hqm⟩
    · exact ⟨0, 5 * π / 3, by
        rw [generate_mode7, generate_mode7]; exact lorenz_time_dep _ hqm⟩
    · exact ⟨0, π / 2, by rw [generate_mode8, generate_mode8]; exact klein_time_dep _ hqm⟩
    · exact ⟨0, 10 * π / 3, by
        rw [generate_mode9, generate_mode9]
        exact gyroid_time_dep _ (getQualityMultiplier_cases q)⟩
    · exact ⟨0, 5 * π / 4, by
        rw [generate_mode10, generate_mode10]; exact spherical_time_dep _ hqm⟩
    · exact ⟨0, 5 * π / 2, by
        rw [generate_mode11, generate_mode11]; exact fractal_time_dep _ hqm⟩
    · exact ⟨0, π / 2, by
        rw [generate_mode12, generate_mode12]; exact phyllotaxis_time_dep _ hqm⟩
    · exact ⟨0, 5 * π / 3, by
        rw [generate_mode13, generate_mode13]; exact tesseract_time_dep⟩
    · exact ⟨0, π / 2, by rw [generate_mode14, generate_mode14]; exact wave_time_dep _ hqm⟩
  · intro q cm md t1 t2
    rw [generate_mode15, generate_mode15]
    unfold generateGravitationalSpacetime
    rfl

/-- Witness for C6 at a concrete mode, quality and mass state. -/
theorem c6_time_dependence_witness :
    ∃ t1 t2 : ℝ, generate 0 2 t1 (1 / 2) 1 ≠ generate 0 2 t2 (1 / 2) 1 :=
  c6_time_dependence.1 0 2 (1 / 2) 1 (by norm_num) (by norm_num)

end Manimation
